import Mathlib

/-!
Verification development for the Payment-Analytics-ETL repository.

The definitions below are a shallow embedding of the repository's core:
* the relational semantics of the SQL pipeline text produced by
  `generate_payment_analysis_query` in `src/query_generator.py`
  (CTEs `gateway_analysis` → `ranked_transactions` →
  `transaction_with_analysis` → bank reconciliation LEFT JOIN);
* the column cleaners and the schema-driven transformer of
  `src/data_cleaner.py`;
* the type inference of `src/generate_config.py`;
* the batch-error policy of `FileProcessor._process_file_in_batches`.

SQL values are embedded as `Option`-typed Lean values (NULL = `none`);
`NUMERIC(18,2)` amounts as `ℚ`; `DATE` as a day number (`Int`).
-/

namespace PaymentETL

/-- SQL equality on nullable scalars: `x = y` is TRUE (here `true`) exactly
when both operands are non-NULL and equal; comparisons involving NULL are
UNKNOWN, which behaves as `false` inside `CASE WHEN` / `ON` conditions. -/
def sqlEq {α : Type} [BEq α] (a b : Option α) : Bool :=
  match a, b with
  | some x, some y => x == y
  | _, _ => false

/-- SQL inequality `x != y`: TRUE exactly when both operands are non-NULL
and different. -/
def sqlNe {α : Type} [BEq α] (a b : Option α) : Bool :=
  match a, b with
  | some x, some y => !(x == y)
  | _, _ => false

/-- SQL `ABS(x - y) <= tol` on nullable NUMERIC operands: NULL on either
side makes the predicate UNKNOWN, i.e. `false` in a join / CASE condition. -/
def amountWithin (tol : ℚ) (a b : Option ℚ) : Bool :=
  match a, b with
  | some x, some y => |x - y| ≤ tol
  | _, _ => false

/-- SQL string concatenation `a || b`: NULL-propagating. -/
def sqlConcat (a b : Option String) : Option String :=
  match a, b with
  | some x, some y => some (x ++ y)
  | _, _ => none

/-- Character-wise ASCII uppercasing; this is `String.toUpper` (a map of
`Char.toUpper` over the characters), written out so that it evaluates by
kernel reduction. -/
def upperString (s : String) : String :=
  String.mk (s.data.map Char.toUpper)

/-- SQL `UPPER` on a nullable VARCHAR. -/
def sqlUpper (s : Option String) : Option String :=
  s.map upperString

/-- SQL `MAX` aggregate over nullable VARCHAR values: the largest non-NULL
value, or NULL when every value is NULL. -/
def sqlMaxStr (l : List (Option String)) : Option String :=
  l.foldl (fun acc v =>
    match acc, v with
    | none, v => v
    | acc, none => acc
    | some a, some b => some (if a < b then b else a)) none

/-- One row of the `gateway_analysis` CTE, restricted to the columns the
later pipeline stages read (`rt.*` additionally carries portal-, metabase-
and gateway-specific passthrough columns, which no later stage inspects;
they are omitted here).  The four lifecycle flags are the booleans the
per-gateway UNION ALL branches compute from `status` / `txn_type`. -/
structure GatewayRow where
  gateway_order_id : Option Int
  gateway_transaction_id : Option String
  amount : Option ℚ
  status : Option String
  transaction_date : Option Int
  authorization_code : Option String
  rrn : Option String
  response_code : Option String
  is_auth : Bool
  is_capture : Bool
  is_refund : Bool
  is_void : Bool
deriving DecidableEq

/-- Partition key of the window functions in `ranked_transactions`:
`PARTITION BY ga.gateway_order_id, ga.gateway_transaction_id` (SQL window
partitioning groups NULL keys together, so plain `Option` equality). -/
def groupKey (r : GatewayRow) : Option Int × Option String :=
  (r.gateway_order_id, r.gateway_transaction_id)

/-- One row of the `ranked_transactions` CTE: the gateway row plus the four
window aggregates over its partition. -/
structure RankedRow extends GatewayRow where
  has_auth_in_group : Int
  has_capture_in_group : Int
  auth_rrn_in_group : Option String
  auth_authorization_code_in_group : Option String
deriving DecidableEq

/-- Window aggregation of one row of `ranked_transactions`:
`MAX(CASE WHEN ga.is_auth THEN 1 ELSE 0 END) OVER (PARTITION BY
ga.gateway_order_id, ga.gateway_transaction_id)` and the three sibling
aggregates (`MAX(CASE WHEN ga.is_auth THEN ga.rrn END) OVER (...)` ignores
the NULLs contributed by non-auth rows). -/
def rankRow (rows : List GatewayRow) (r : GatewayRow) : RankedRow :=
  let grp := rows.filter (fun x => groupKey x == groupKey r)
  { toGatewayRow := r
    has_auth_in_group := if grp.any (·.is_auth) then 1 else 0
    has_capture_in_group := if grp.any (·.is_capture) then 1 else 0
    auth_rrn_in_group := sqlMaxStr ((grp.filter (·.is_auth)).map (·.rrn))
    auth_authorization_code_in_group :=
      sqlMaxStr ((grp.filter (·.is_auth)).map (·.authorization_code)) }

/-- Semantics of the `ranked_transactions` CTE: every input row, annotated
with its partition's aggregates. -/
def rankedTransactions (rows : List GatewayRow) : List RankedRow :=
  rows.map (rankRow rows)

/-- Condition `rt.response_code = '10000'` of the classification CASEs. -/
def code10000 (rt : RankedRow) : Bool :=
  sqlEq rt.response_code (some "10000")

/-- Condition `UPPER(rt.status) = 'S'` of the classification CASEs. -/
def statusIs (rt : RankedRow) (s : String) : Bool :=
  sqlEq (sqlUpper rt.status) (some s)

/-- The inner CASE of the `transaction_outcome` expression (also the CASE
recomputed verbatim inside the `WHERE` clause of
`transaction_with_analysis`), yielding `'Success'` or `'Failure'`. -/
def successCase (rt : RankedRow) : String :=
  if rt.is_refund then
    if code10000 rt || statusIs rt "FULLY_REFUNDED" || statusIs rt "PARTIALLY_REFUNDED"
    then "Success" else "Failure"
  else if rt.is_void || statusIs rt "CANCEL" then
    if code10000 rt || statusIs rt "CANCELED" then "Success" else "Failure"
  else if rt.is_capture then
    if code10000 rt || statusIs rt "APPROVED" then "Success" else "Failure"
  else if rt.is_auth then
    if code10000 rt || statusIs rt "APPROVED" then "Success" else "Failure"
  else if code10000 rt then "Success"
  else if statusIs rt "APPROVED" then "Success"
  else "Failure"

/-- The `transaction_analysis` label CASE (VARCHAR, NULL-propagating through
`||` with a NULL `response_code`). -/
def transactionAnalysis (rt : RankedRow) : Option String :=
  if rt.is_refund then
    if code10000 rt || statusIs rt "FULLY_REFUNDED" || statusIs rt "PARTIALLY_REFUNDED"
    then some "Refund Successful" else some "Refund Failed/Pending"
  else if rt.is_void || statusIs rt "CANCEL" then
    if code10000 rt || statusIs rt "CANCELED"
    then some "Void Successful" else some "Void Failed/Pending"
  else if rt.is_capture then
    if rt.has_auth_in_group == 0 then
      if code10000 rt || statusIs rt "APPROVED"
      then some "Capture Successful (auth_less)"
      else some "Capture Failed/Pending (auth_less)"
    else if code10000 rt || statusIs rt "APPROVED" then
      if rt.has_auth_in_group == 1
      then some "Capture Successful (Authorisation Merged)"
      else some "Capture Successful"
    else
      sqlConcat (sqlConcat (some "Capture Failed/Pending (Check Response: ")
        rt.response_code) (some ")")
  else if rt.is_auth then
    if code10000 rt || statusIs rt "APPROVED"
    then some "Authorisation Successful"
    else sqlConcat (sqlConcat (some "Authorisation Failed (Check Response: ")
      rt.response_code) (some ")")
  else if code10000 rt then some "General Success (Code 10000)"
  else if statusIs rt "APPROVED" then some "General Success (Approved)"
  else if sqlNe rt.response_code (some "10000") && rt.response_code.isSome
          && sqlNe rt.response_code (some "") then
    sqlConcat (sqlConcat (some "General Failure (Code: ") rt.response_code) (some ")")
  else if statusIs rt "DECLINED" || statusIs rt "FAILED"
  then some "General Failure (Declined/Failed)"
  else some "Unknown/Incomplete Status"

/-- Expression `CASE WHEN rt.is_capture AND rt.has_auth_in_group = 1 AND
rt.has_capture_in_group = 1 THEN rt.auth_rrn_in_group ELSE rt.rrn END`. -/
def finalRrn (rt : RankedRow) : Option String :=
  if rt.is_capture && rt.has_auth_in_group == 1 && rt.has_capture_in_group == 1
  then rt.auth_rrn_in_group else rt.rrn

/-- Expression computing `final_authorization_code` (same guard as
`finalRrn`, with the authorization code aggregate). -/
def finalAuthorizationCode (rt : RankedRow) : Option String :=
  if rt.is_capture && rt.has_auth_in_group == 1 && rt.has_capture_in_group == 1
  then rt.auth_authorization_code_in_group else rt.authorization_code

/-- The first conjunct of the `WHERE` clause of `transaction_with_analysis`:
`NOT (rt.is_auth AND rt.has_auth_in_group = 1 AND rt.has_capture_in_group = 1)`. -/
def notMergedAuth (rt : RankedRow) : Bool :=
  !(rt.is_auth && rt.has_auth_in_group == 1 && rt.has_capture_in_group == 1)

/-- The second conjunct of the `WHERE` clause: the recomputed outcome CASE
compared against `'Success'`. -/
def successFilter (rt : RankedRow) : Bool :=
  (if successCase rt == "Success" then "Success" else "Failure") == "Success"

/-- One output row of the `transaction_with_analysis` CTE (`rt.*` plus the
four derived columns). -/
structure TaRow extends RankedRow where
  final_rrn : Option String
  final_authorization_code : Option String
  transaction_analysis : Option String
  transaction_outcome : String
deriving DecidableEq

/-- Projection of a ranked row to a `transaction_with_analysis` row. -/
def toTaRow (rt : RankedRow) : TaRow :=
  { toRankedRow := rt
    final_rrn := finalRrn rt
    final_authorization_code := finalAuthorizationCode rt
    transaction_analysis := transactionAnalysis rt
    transaction_outcome := if successCase rt == "Success" then "Success" else "Failure" }

/-- Semantics of the `transaction_with_analysis` CTE: rank every gateway
row, keep the rows passing both `WHERE` conjuncts, and attach the derived
columns. -/
def transactionWithAnalysis (rows : List GatewayRow) : List TaRow :=
  (rankedTransactions rows).filterMap fun rt =>
    if notMergedAuth rt && successFilter rt then some (toTaRow rt) else none

/-- Contribution of a single gateway row to `transaction_with_analysis`:
its ranked form when it survives the `WHERE` clause, `none` otherwise. -/
def twaStep (rows : List GatewayRow) (r : GatewayRow) : Option TaRow :=
  let rt := rankRow rows r
  if notMergedAuth rt && successFilter rt then some (toTaRow rt) else none

/-- One row of the `bank` table, restricted to the columns the reconciliation
join and CASE read (the other projected `bank_*` columns are passthrough). -/
structure BankRow where
  authorization_code : Option String
  rrn : Option String
  transaction_amount : Option ℚ
  transaction_date : Option Int
deriving DecidableEq

/-- Tier (a) of the OR'd LEFT JOIN predicate: exact authorization code +
RRN + amount within 0.01. -/
def joinTier1 (ta : TaRow) (b : BankRow) : Bool :=
  sqlEq ta.final_authorization_code b.authorization_code
    && sqlEq ta.final_rrn b.rrn
    && amountWithin (1/100) ta.amount b.transaction_amount

/-- Tier (b): RRN + amount within 0.01. -/
def joinTier2 (ta : TaRow) (b : BankRow) : Bool :=
  sqlEq ta.final_rrn b.rrn && amountWithin (1/100) ta.amount b.transaction_amount

/-- Tier (c): authorization code + amount within 0.01. -/
def joinTier3 (ta : TaRow) (b : BankRow) : Bool :=
  sqlEq ta.final_authorization_code b.authorization_code
    && amountWithin (1/100) ta.amount b.transaction_amount

/-- Tier (d): authorization code + same calendar day + amount within 0.01. -/
def joinTier4 (ta : TaRow) (b : BankRow) : Bool :=
  sqlEq ta.final_authorization_code b.authorization_code
    && sqlEq b.transaction_date ta.transaction_date
    && amountWithin (1/100) ta.amount b.transaction_amount

/-- Tier (e): RRN + amount within 1.0. -/
def joinTier5 (ta : TaRow) (b : BankRow) : Bool :=
  sqlEq ta.final_rrn b.rrn && amountWithin 1 ta.amount b.transaction_amount

/-- Tier (f): authorization code + amount within 1.0. -/
def joinTier6 (ta : TaRow) (b : BankRow) : Bool :=
  sqlEq ta.final_authorization_code b.authorization_code
    && amountWithin 1 ta.amount b.transaction_amount

/-- Tier (g): authorization code + same calendar day + amount within 1.0. -/
def joinTier7 (ta : TaRow) (b : BankRow) : Bool :=
  sqlEq ta.final_authorization_code b.authorization_code
    && sqlEq b.transaction_date ta.transaction_date
    && amountWithin 1 ta.amount b.transaction_amount

/-- The seven-tier disjunction of the `LEFT JOIN bank b ON (...)` predicate,
in source order. -/
def bankJoinPred (ta : TaRow) (b : BankRow) : Bool :=
  joinTier1 ta b || joinTier2 ta b || joinTier3 ta b || joinTier4 ta b
    || joinTier5 ta b || joinTier6 ta b || joinTier7 ta b

/-- Label of tier (a) in the `bank_match_type` CASE. -/
def labelTier1 : String := "MATCH: Authorization Code + RRN + Amount"

/-- Label of tier (b). -/
def labelTier2 : String := "MATCH: RRN + Amount"

/-- Label of tier (c). -/
def labelTier3 : String := "MATCH: Authorization Code + Amount"

/-- Label of tier (d). -/
def labelTier4 : String := "FALLBACK MATCH: Authorization Code + Same Day + Amount"

/-- Label of tier (e). -/
def labelTier5 : String := "PARTIAL MATCH: RRN + Approx Amount"

/-- Label of tier (f). -/
def labelTier6 : String := "PARTIAL MATCH: Authorization Code + Approx Amount"

/-- Label of tier (g). -/
def labelTier7 : String := "PARTIAL MATCH: Authorization Code + Same Day + Approx Amount"

/-- The `bank_match_type` CASE expression of the generated view, branch by
branch as emitted (each branch additionally guards on
`b.authorization_code IS NOT NULL` resp. `b.rrn IS NOT NULL`). -/
def bankMatchType (ta : TaRow) (b : BankRow) : Option String :=
  if b.authorization_code.isSome
      && sqlEq ta.final_authorization_code b.authorization_code
      && sqlEq ta.final_rrn b.rrn
      && amountWithin (1/100) ta.amount b.transaction_amount then some labelTier1
  else if b.rrn.isSome && sqlEq ta.final_rrn b.rrn
      && amountWithin (1/100) ta.amount b.transaction_amount then some labelTier2
  else if b.authorization_code.isSome
      && sqlEq ta.final_authorization_code b.authorization_code
      && amountWithin (1/100) ta.amount b.transaction_amount then some labelTier3
  else if b.authorization_code.isSome
      && sqlEq ta.final_authorization_code b.authorization_code
      && sqlEq b.transaction_date ta.transaction_date
      && amountWithin (1/100) ta.amount b.transaction_amount then some labelTier4
  else if b.rrn.isSome && sqlEq ta.final_rrn b.rrn
      && amountWithin 1 ta.amount b.transaction_amount then some labelTier5
  else if b.authorization_code.isSome
      && sqlEq ta.final_authorization_code b.authorization_code
      && amountWithin 1 ta.amount b.transaction_amount then some labelTier6
  else if b.authorization_code.isSome
      && sqlEq ta.final_authorization_code b.authorization_code
      && sqlEq b.transaction_date ta.transaction_date
      && amountWithin 1 ta.amount b.transaction_amount then some labelTier7
  else none

/-- Specification-side label choice: the label of the tightest
(earliest-listed) join tier whose predicate holds, NULL when no tier holds. -/
def tightestTierLabel (ta : TaRow) (b : BankRow) : Option String :=
  if joinTier1 ta b then some labelTier1
  else if joinTier2 ta b then some labelTier2
  else if joinTier3 ta b then some labelTier3
  else if joinTier4 ta b then some labelTier4
  else if joinTier5 ta b then some labelTier5
  else if joinTier6 ta b then some labelTier6
  else if joinTier7 ta b then some labelTier7
  else none

/-- Semantics of the final `SELECT ta.*, b.*, bank_match_type FROM
transaction_with_analysis ta LEFT JOIN bank b ON (...)`: each
`transaction_with_analysis` row is paired with every bank row satisfying
the OR'd tier predicate, or with NULL when none does. -/
def reconciliationViewRows (taRows : List TaRow) (bankRows : List BankRow) :
    List (TaRow × Option BankRow) :=
  taRows.flatMap fun ta =>
    match bankRows.filter (bankJoinPred ta) with
    | [] => [(ta, none)]
    | ms => ms.map fun b => (ta, some b)

/-! Embedding of the generated SQL text assembly
(`generate_payment_analysis_query` and its field validation). -/

/-- Python `str.join`: `pyJoin sep l` is the elements of `l` connected by
`sep` (empty for the empty list). -/
def pyJoin (sep : String) : List String → String
  | [] => ""
  | a :: rest => rest.foldl (fun acc x => acc ++ sep ++ x) a

/-- Whitespace as Python's `str.strip` and `\s` see it (ASCII data). -/
def isPySpace (c : Char) : Bool :=
  c == ' ' || c == '\t' || c == '\n' || c == '\r' || c == '\x0b' || c == '\x0c'

/-- Python `str.strip()`. -/
def pyStrip (s : String) : String :=
  String.mk (((s.data.dropWhile isPySpace).reverse.dropWhile isPySpace).reverse)

/-- Python `str.startswith`. -/
def strStartsWith (s pre : String) : Bool :=
  pre.data.isPrefixOf s.data

/-- Worker for `pySplitOn`; `fuel` only bounds the recursion (the input
length plus one always suffices). -/
def pySplitOnAux (sep : List Char) : Nat → List Char → List Char → List (List Char)
  | 0, _, cur => [cur.reverse]
  | _ + 1, [], cur => [cur.reverse]
  | fuel + 1, c :: rest, cur =>
    if sep.isPrefixOf (c :: rest) then
      cur.reverse :: pySplitOnAux sep fuel ((c :: rest).drop sep.length) []
    else
      pySplitOnAux sep fuel rest (c :: cur)

/-- Python `s.split(sep)` for a non-empty separator: non-overlapping,
left-to-right. -/
def pySplitOn (s sep : String) : List String :=
  if sep.data.isEmpty then [s]
  else (pySplitOnAux sep.data (s.data.length + 1) s.data []).map String.mk

/-- Lookup in an association list (a Python dict read with `d[k]` /
`k in d`). -/
def lookupStr (m : List (String × String)) (k : String) : Option String :=
  (m.find? (fun p => p.1 == k)).map (·.2)

/-- Worker for `pyFormat`, one character at a time: outside a placeholder
(`acc = none`) characters are copied; inside one (`acc = some name`) the
name is accumulated until the closing brace, whose binding is then
emitted.  Each placeholder of the template is bound at every call site,
matching Python `str.format`, which would otherwise raise. -/
def pyFormatAux (subs : List (String × String)) :
    Option (List Char) → List Char → List Char
  | _, [] => []
  | none, c :: rest =>
    if c == '{' then pyFormatAux subs (some []) rest
    else c :: pyFormatAux subs none rest
  | some acc, c :: rest =>
    if c == '}' then
      ((lookupStr subs (String.mk acc.reverse)).getD "").data
        ++ pyFormatAux subs none rest
    else pyFormatAux subs (some (c :: acc)) rest

/-- Python `template.format(**subs)` for templates whose braces are all
plain `\x7bname\x7d` placeholders. -/
def pyFormat (template : String) (subs : List (String × String)) : String :=
  String.mk (pyFormatAux subs none template.data)

/-- Lines of the fixed index-creation prologue of the generated pipeline
(the initial `query_parts` list). -/
def indexLines : List String := [
    "-- Recommended Indices for Performance",
    "DO $$",
    "BEGIN",
    "    IF NOT EXISTS (SELECT 1 FROM pg_indexes WHERE indexname = 'idx_portal_order_id') THEN CREATE INDEX idx_portal_order_id ON portal (order_id); END IF;",
    "    IF NOT EXISTS (SELECT 1 FROM pg_indexes WHERE indexname = 'idx_metabase_portal_order_id') THEN CREATE INDEX idx_metabase_portal_order_id ON metabase (portal_order_id); END IF;",
    "    IF NOT EXISTS (SELECT 1 FROM pg_indexes WHERE indexname = 'idx_metabase_gateway_ids') THEN CREATE INDEX idx_metabase_gateway_ids ON metabase (gateway_order_id, gateway_transaction_id); END IF;",
    "    IF NOT EXISTS (SELECT 1 FROM pg_indexes WHERE indexname = 'idx_checkout_v1_join_keys') THEN CREATE INDEX idx_checkout_v1_join_keys ON checkout_v1 (order_id, payment_online_transaction_id); END IF;",
    "    IF NOT EXISTS (SELECT 1 FROM pg_indexes WHERE indexname = 'idx_checkout_v1_status_code') THEN CREATE INDEX idx_checkout_v1_status_code ON checkout_v1 (status, response_code); END IF;",
    "    IF NOT EXISTS (SELECT 1 FROM pg_indexes WHERE indexname = 'idx_checkout_v2_join_keys') THEN CREATE INDEX idx_checkout_v2_join_keys ON checkout_v2 (order_id, payment_online_transaction_id); END IF;",
    "    IF NOT EXISTS (SELECT 1 FROM pg_indexes WHERE indexname = 'idx_checkout_v2_status_code') THEN CREATE INDEX idx_checkout_v2_status_code ON checkout_v2 (status, response_code); END IF;",
    "    IF NOT EXISTS (SELECT 1 FROM pg_indexes WHERE indexname = 'idx_payfort_join_keys') THEN CREATE INDEX idx_payfort_join_keys ON payfort (order_id, payment_online_transaction_id); END IF;",
    "    IF NOT EXISTS (SELECT 1 FROM pg_indexes WHERE indexname = 'idx_payfort_status') THEN CREATE INDEX idx_payfort_status ON payfort (status); END IF;",
    "    IF NOT EXISTS (SELECT 1 FROM pg_indexes WHERE indexname = 'idx_tamara_payment_id') THEN CREATE INDEX idx_tamara_payment_id ON tamara (payment_online_transaction_id); END IF;",
    "    IF NOT EXISTS (SELECT 1 FROM pg_indexes WHERE indexname = 'idx_tamara_status_type') THEN CREATE INDEX idx_tamara_status_type ON tamara (status, txn_type); END IF;"]

/-- The three bank-index lines appended only when reconciliation is on. -/
def bankIndexLines : List String := [
    "    IF NOT EXISTS (SELECT 1 FROM pg_indexes WHERE indexname = 'idx_bank_auth_rrn') THEN CREATE INDEX idx_bank_auth_rrn ON bank (authorization_code, rrn); END IF;",
    "    IF NOT EXISTS (SELECT 1 FROM pg_indexes WHERE indexname = 'idx_bank_rrn') THEN CREATE INDEX idx_bank_rrn ON bank (rrn); END IF;",
    "    IF NOT EXISTS (SELECT 1 FROM pg_indexes WHERE indexname = 'idx_bank_auth_code') THEN CREATE INDEX idx_bank_auth_code ON bank (authorization_code); END IF;"]

/-- The DROP VIEW / CREATE VIEW header lines up to the opening of the
`gateway_analysis` CTE. -/
def viewHeaderLines : List String := [
    "END$$;",
    "",
    "-- Drop the view first to allow changing column data types",
    "DROP VIEW IF EXISTS payment_analysis_view;",
    "",
    "-- Create or replace a view that encapsulates our payment analysis query",
    "CREATE OR REPLACE VIEW payment_analysis_view AS",
    "WITH",
    "gateway_analysis AS ("]

/-- The first `WHERE` conjunct of `transaction_with_analysis`: filter out
authorization rows merged into a paired capture. -/
def mergedAuthFilterLine : String :=
  "    WHERE NOT (rt.is_auth AND rt.has_auth_in_group = 1 AND rt.has_capture_in_group = 1)"

/-- The second `WHERE` conjunct: keep only rows whose recomputed outcome
CASE yields Success. -/
def successFilterLine : String :=
  "      AND (CASE WHEN (CASE WHEN rt.is_refund THEN CASE WHEN rt.response_code = '10000' OR UPPER(rt.status) IN ('FULLY_REFUNDED', 'PARTIALLY_REFUNDED') THEN 'Success' ELSE 'Failure' END WHEN rt.is_void OR UPPER(rt.status) = 'CANCEL' THEN CASE WHEN rt.response_code = '10000' OR UPPER(rt.status) = 'CANCELED' THEN 'Success' ELSE 'Failure' END WHEN rt.is_capture THEN CASE WHEN rt.response_code = '10000' OR UPPER(rt.status) = 'APPROVED' THEN 'Success' ELSE 'Failure' END WHEN rt.is_auth THEN CASE WHEN rt.response_code = '10000' OR UPPER(rt.status) = 'APPROVED' THEN 'Success' ELSE 'Failure' END WHEN rt.response_code = '10000' THEN 'Success' WHEN UPPER(rt.status) = 'APPROVED' THEN 'Success' ELSE 'Failure' END) = 'Success' THEN 'Success' ELSE 'Failure' END) = 'Success'"

/-- The `ranked_transactions` and `transaction_with_analysis` CTE lines
appended unconditionally after the gateway UNION (including both `WHERE`
conjuncts). -/
def rankedTaLines : List String := [
    "),",
    "ranked_transactions AS (",
    "    SELECT",
    "        ga.*,",
    "        (MAX(CASE WHEN ga.is_auth THEN 1 ELSE 0 END) OVER (PARTITION BY ga.gateway_order_id, ga.gateway_transaction_id))::INTEGER AS has_auth_in_group,",
    "        (MAX(CASE WHEN ga.is_capture THEN 1 ELSE 0 END) OVER (PARTITION BY ga.gateway_order_id, ga.gateway_transaction_id))::INTEGER AS has_capture_in_group,",
    "        (MAX(CASE WHEN ga.is_auth THEN ga.rrn END) OVER (PARTITION BY ga.gateway_order_id, ga.gateway_transaction_id))::VARCHAR AS auth_rrn_in_group,",
    "        (MAX(CASE WHEN ga.is_auth THEN ga.authorization_code END) OVER (PARTITION BY ga.gateway_order_id, ga.gateway_transaction_id))::VARCHAR AS auth_authorization_code_in_group",
    "    FROM gateway_analysis ga",
    "),",
    "transaction_with_analysis AS (",
    "SELECT",
    "        rt.*,",
    "        CASE WHEN rt.is_capture AND rt.has_auth_in_group = 1 AND rt.has_capture_in_group = 1 THEN rt.auth_rrn_in_group ELSE rt.rrn END::VARCHAR AS final_rrn,",
    "        CASE WHEN rt.is_capture AND rt.has_auth_in_group = 1 AND rt.has_capture_in_group = 1 THEN rt.auth_authorization_code_in_group ELSE rt.authorization_code END::VARCHAR AS final_authorization_code,",
    "        CASE",
    "            WHEN rt.is_refund THEN CASE WHEN rt.response_code = '10000' OR UPPER(rt.status) IN ('FULLY_REFUNDED', 'PARTIALLY_REFUNDED') THEN 'Refund Successful' ELSE 'Refund Failed/Pending' END",
    "            WHEN rt.is_void OR UPPER(rt.status) = 'CANCEL' THEN CASE WHEN rt.response_code = '10000' OR UPPER(rt.status) = 'CANCELED' THEN 'Void Successful' ELSE 'Void Failed/Pending' END",
    "            WHEN rt.is_capture THEN",
    "                CASE",
    "                    WHEN rt.has_auth_in_group = 0 THEN CASE WHEN rt.response_code = '10000' OR UPPER(rt.status) = 'APPROVED' THEN 'Capture Successful (auth_less)' ELSE 'Capture Failed/Pending (auth_less)' END",
    "                    WHEN rt.response_code = '10000' OR UPPER(rt.status) = 'APPROVED' THEN CASE WHEN rt.has_auth_in_group = 1 THEN 'Capture Successful (Authorisation Merged)' ELSE 'Capture Successful' END",
    "                    ELSE 'Capture Failed/Pending (Check Response: ' || rt.response_code || ')'",
    "                END",
    "            WHEN rt.is_auth THEN CASE WHEN rt.response_code = '10000' OR UPPER(rt.status) = 'APPROVED' THEN 'Authorisation Successful' ELSE 'Authorisation Failed (Check Response: ' || rt.response_code || ')' END",
    "            WHEN rt.response_code = '10000' THEN 'General Success (Code 10000)'",
    "            WHEN UPPER(rt.status) = 'APPROVED' THEN 'General Success (Approved)'",
    "            WHEN rt.response_code != '10000' AND rt.response_code IS NOT NULL AND rt.response_code != '' THEN 'General Failure (Code: ' || rt.response_code || ')'",
    "            WHEN UPPER(rt.status) IN ('DECLINED', 'FAILED') THEN 'General Failure (Declined/Failed)'",
    "            ELSE 'Unknown/Incomplete Status'",
    "        END::VARCHAR AS transaction_analysis,",
    "        CASE",
    "            WHEN (CASE",
    "                WHEN rt.is_refund THEN CASE WHEN rt.response_code = '10000' OR UPPER(rt.status) IN ('FULLY_REFUNDED', 'PARTIALLY_REFUNDED') THEN 'Success' ELSE 'Failure' END",
    "                WHEN rt.is_void OR UPPER(rt.status) = 'CANCEL' THEN CASE WHEN rt.response_code = '10000' OR UPPER(rt.status) = 'CANCELED' THEN 'Success' ELSE 'Failure' END",
    "                WHEN rt.is_capture THEN CASE WHEN rt.response_code = '10000' OR UPPER(rt.status) = 'APPROVED' THEN 'Success' ELSE 'Failure' END",
    "                WHEN rt.is_auth THEN CASE WHEN rt.response_code = '10000' OR UPPER(rt.status) = 'APPROVED' THEN 'Success' ELSE 'Failure' END",
    "                WHEN rt.response_code = '10000' THEN 'Success'",
    "                WHEN UPPER(rt.status) = 'APPROVED' THEN 'Success'",
    "                ELSE 'Failure'",
    "            END) = 'Success' THEN 'Success' ELSE 'Failure'",
    "        END::VARCHAR AS transaction_outcome",
    "    FROM ranked_transactions rt",
    mergedAuthFilterLine,
    successFilterLine,
    ")"]

/-- The final view SELECT with bank columns, the `bank_match_type` CASE and
the OR-of-tiers LEFT JOIN, emitted when reconciliation is on. -/
def reconSelectLines : List String := [
    "SELECT ",
    "    ta.*,",
    "    b.authorization_code::VARCHAR AS bank_auth_code,",
    "    b.rrn::VARCHAR AS bank_rrn,",
    "    b.transaction_amount::NUMERIC(18,2) AS bank_amount,",
    "    b.transaction_date::DATE AS bank_transaction_date,",
    "    b.transaction_type::VARCHAR AS bank_transaction_type,",
    "    b.status::VARCHAR AS bank_status,",
    "    b.bank_name::VARCHAR AS bank_bank_name,",
    "    b.card_type::VARCHAR AS bank_card_type,",
    "    b.cashback_amount::NUMERIC(18,2) AS bank_cashback_amount,",
    "    b.discount_amount::NUMERIC(18,2) AS bank_discount_amount,",
    "    b.masked_card::VARCHAR AS bank_masked_card,",
    "    b.merchant_identifier::VARCHAR AS bank_merchant_identifier,",
    "    b.payment_online_transaction_id::VARCHAR AS bank_payment_id,",
    "    b.posting_date::DATE AS bank_posting_date,",
    "    b.terminal_identifier::VARCHAR AS bank_terminal_identifier, ",
    "    b.total_payment_amount::NUMERIC(18,2) AS bank_total_payment_amount,",
    "    b.transaction_link_url::VARCHAR AS bank_transaction_link_url,",
    "    b.vat_amount::NUMERIC(18,2) AS bank_vat_amount,",
    "    CASE ",
    "        WHEN b.authorization_code IS NOT NULL AND ta.final_authorization_code = b.authorization_code AND ta.final_rrn = b.rrn AND ABS(ta.amount::NUMERIC(18,2) - b.transaction_amount::NUMERIC(18,2)) <= 0.01 THEN 'MATCH: Authorization Code + RRN + Amount'",
    "        WHEN b.rrn IS NOT NULL AND ta.final_rrn = b.rrn AND ABS(ta.amount::NUMERIC(18,2) - b.transaction_amount::NUMERIC(18,2)) <= 0.01 THEN 'MATCH: RRN + Amount'",
    "        WHEN b.authorization_code IS NOT NULL AND ta.final_authorization_code = b.authorization_code AND ABS(ta.amount::NUMERIC(18,2) - b.transaction_amount::NUMERIC(18,2)) <= 0.01 THEN 'MATCH: Authorization Code + Amount'",
    "        WHEN b.authorization_code IS NOT NULL AND ta.final_authorization_code = b.authorization_code AND (b.transaction_date::DATE = ta.transaction_date::DATE) AND ABS(ta.amount::NUMERIC(18,2) - b.transaction_amount::NUMERIC(18,2)) <= 0.01 THEN 'FALLBACK MATCH: Authorization Code + Same Day + Amount'",
    "        WHEN b.rrn IS NOT NULL AND ta.final_rrn = b.rrn AND ABS(ta.amount::NUMERIC(18,2) - b.transaction_amount::NUMERIC(18,2)) <= 1.0 THEN 'PARTIAL MATCH: RRN + Approx Amount'",
    "        WHEN b.authorization_code IS NOT NULL AND ta.final_authorization_code = b.authorization_code AND ABS(ta.amount::NUMERIC(18,2) - b.transaction_amount::NUMERIC(18,2)) <= 1.0 THEN 'PARTIAL MATCH: Authorization Code + Approx Amount'",
    "        WHEN b.authorization_code IS NOT NULL AND ta.final_authorization_code = b.authorization_code AND (b.transaction_date::DATE = ta.transaction_date::DATE) AND ABS(ta.amount::NUMERIC(18,2) - b.transaction_amount::NUMERIC(18,2)) <= 1.0 THEN 'PARTIAL MATCH: Authorization Code + Same Day + Approx Amount'",
    "        ELSE NULL",
    "    END::VARCHAR AS bank_match_type",
    "FROM transaction_with_analysis ta",
    "LEFT JOIN bank b ON",
    "    (",
    "        (ta.final_authorization_code = b.authorization_code AND ta.final_rrn = b.rrn AND ABS(ta.amount::NUMERIC(18,2) - b.transaction_amount::NUMERIC(18,2)) <= 0.01)",
    "        OR (ta.final_rrn = b.rrn AND ABS(ta.amount::NUMERIC(18,2) - b.transaction_amount::NUMERIC(18,2)) <= 0.01)",
    "        OR (ta.final_authorization_code = b.authorization_code AND ABS(ta.amount::NUMERIC(18,2) - b.transaction_amount::NUMERIC(18,2)) <= 0.01)",
    "        OR (ta.final_authorization_code = b.authorization_code AND (b.transaction_date::DATE = ta.transaction_date::DATE) AND ABS(ta.amount::NUMERIC(18,2) - b.transaction_amount::NUMERIC(18,2)) <= 0.01)",
    "        OR (ta.final_rrn = b.rrn AND ABS(ta.amount::NUMERIC(18,2) - b.transaction_amount::NUMERIC(18,2)) <= 1.0)",
    "        OR (ta.final_authorization_code = b.authorization_code AND ABS(ta.amount::NUMERIC(18,2) - b.transaction_amount::NUMERIC(18,2)) <= 1.0)",
    "        OR (ta.final_authorization_code = b.authorization_code AND (b.transaction_date::DATE = ta.transaction_date::DATE) AND ABS(ta.amount::NUMERIC(18,2) - b.transaction_amount::NUMERIC(18,2)) <= 1.0)",
    "    )"]

/-- The view SELECT when reconciliation is off. -/
def noReconSelectLine : String := "SELECT * FROM transaction_with_analysis"

/-- The per-gateway SELECT template (verbatim, with `\x7bname\x7d`
placeholders substituted by `pyFormat`). -/
def gatewaySelectTemplate : String :=
  "\n    SELECT\n        '\x7bgateway_source_val\x7d'::VARCHAR AS gateway_source,\n        \x7balias\x7d.order_id::\x7bgateway_order_id_type\x7d AS gateway_order_id,\n        \x7balias\x7d.payment_online_transaction_id::VARCHAR AS gateway_transaction_id,\n        \x7bamount_col\x7d::\x7bamount_type\x7d AS amount,\n        \x7balias\x7d.status::VARCHAR AS status,\n        \x7btransaction_date_col\x7d::\x7btransaction_date_type\x7d AS transaction_date,\n        \x7bauth_code_col\x7d::\x7bauth_code_type\x7d AS authorization_code,\n        \x7brrn_col\x7d::\x7brrn_type\x7d AS rrn,\n        \x7bpayment_method_col\x7d::\x7bpayment_method_type\x7d AS payment_method,\n        \x7bresponse_code_col\x7d::\x7bresponse_code_type\x7d AS response_code,\n        \x7bresponse_description_col\x7d::\x7bresponse_description_type\x7d AS response_description,\n        \x7bis_auth_expr\x7d::BOOLEAN AS is_auth,\n        \x7bis_capture_expr\x7d::BOOLEAN AS is_capture,\n        \x7bis_refund_expr\x7d::BOOLEAN AS is_refund,\n        \x7bis_void_expr\x7d::BOOLEAN AS is_void,\n        \n        -- Portal data\n        p.order_id::INTEGER AS portal_order_id_val, -- Renamed to avoid conflict with p.order_id for join\n        p.transaction_amount::NUMERIC(18,2) AS portal_amount,\n        p.gateway::VARCHAR AS portal_gateway,\n        p.status::VARCHAR AS portal_status,\n        p.payment_method::VARCHAR AS portal_payment_method,\n        p.transaction_date::DATE AS portal_transaction_date,\n        p.customer_name::VARCHAR AS portal_customer_name,\n        p.chef_name::VARCHAR AS portal_chef_name,\n        p.chef_total::NUMERIC(18,2) AS portal_chef_total,\n        p.commission_amount::NUMERIC(18,2) AS portal_commission_amount,\n        p.delivery_type::VARCHAR AS portal_delivery_type,\n        p.discount_type::VARCHAR AS portal_discount_type,\n        p.ispaid::VARCHAR AS portal_ispaid,\n        p.transaction_id::VARCHAR AS portal_transaction_id,\n        p.wallet_paid_amount::NUMERIC(18,2) AS portal_wallet_paid_amount,\n        p.promo_code_total_discount::NUMERIC(18,2) AS portal_promo_code_total_discount,\n        \n        -- Metabase data\n        m.transaction_amount::NUMERIC(18,2) AS metabase_amount,\n        m.status::VARCHAR AS metabase_status,\n        m.gateway::VARCHAR AS metabase_gateway,\n        m.portal_order_id::INTEGER AS metabase_portal_order_id,\n        m.app_version::VARCHAR AS metabase_app_version,\n        m.platform::VARCHAR AS metabase_platform,\n        m.order_status::VARCHAR AS metabase_order_status,\n        m.order_total::NUMERIC(18,2) AS metabase_order_total,\n        m.hyperpay_transaction_id::VARCHAR AS metabase_hyperpay_transaction_id,\n        m.success::VARCHAR AS metabase_success,\n        m.transactiontype::VARCHAR AS metabase_transactiontype,\n        \n        -- Gateway-specific columns (actual for current, NULL for others)\n        \x7bcheckout_v1_cols_str\x7d,\n        \x7bcheckout_v2_cols_str\x7d,\n        \x7bpayfort_cols_str\x7d,\n        \x7btamara_cols_str\x7d\n    FROM \x7btable_name\x7d \x7balias\x7d\n    JOIN metabase m ON \x7bjoin_m_condition\x7d\n    JOIN portal p ON m.portal_order_id = p.order_id -- Original p.order_id used for join\n    \x7bdate_filter_here\x7d\n    "

/-- One entry of `gateways_config` (the Python dict key `alias` is the Lean
field `gwAlias`). -/
structure GatewayCfg where
  gwAlias : String
  table_name : String
  gateway_order_id_type : String
  amount_col : String
  amount_type : String
  transaction_date_col : String
  transaction_date_type : String
  auth_code_col : String
  auth_code_type : String
  rrn_col : String
  rrn_type : String
  payment_method_col : String
  payment_method_type : String
  response_code_col : String
  response_code_type : String
  response_description_col : String
  response_description_type : String
  is_auth_expr : String
  is_capture_expr : String
  is_refund_expr : String
  is_void_expr : String
  join_m_condition : String

/-- The `gateways_config` entry for `checkout_v1`. -/
def checkoutV1Cfg : GatewayCfg where
  gwAlias := "c1"
  table_name := "checkout_v1"
  gateway_order_id_type := "INTEGER"
  amount_col := "c1.transaction_amount"
  amount_type := "NUMERIC(18,2)"
  transaction_date_col := "c1.transaction_date"
  transaction_date_type := "DATE"
  auth_code_col := "c1.authorization_code"
  auth_code_type := "VARCHAR"
  rrn_col := "c1.rrn"
  rrn_type := "VARCHAR"
  payment_method_col := "c1.payment_method"
  payment_method_type := "VARCHAR"
  response_code_col := "c1.response_code"
  response_code_type := "VARCHAR"
  response_description_col := "c1.response_description"
  response_description_type := "VARCHAR"
  is_auth_expr := "(UPPER(c1.status) LIKE '%AUTHORISATION%' OR UPPER(c1.status) LIKE '%AUTHORIZATION%')"
  is_capture_expr := "(UPPER(c1.status) LIKE '%CAPTURE%')"
  is_refund_expr := "(UPPER(c1.status) LIKE '%REFUND%')"
  is_void_expr := "(UPPER(c1.status) LIKE '%VOID%' OR UPPER(c1.status) = 'CANCEL')"
  join_m_condition := "c1.order_id = m.gateway_order_id AND c1.payment_online_transaction_id = m.gateway_transaction_id"

/-- The `gateways_config` entry for `checkout_v2`. -/
def checkoutV2Cfg : GatewayCfg where
  gwAlias := "c2"
  table_name := "checkout_v2"
  gateway_order_id_type := "INTEGER"
  amount_col := "c2.transaction_amount"
  amount_type := "NUMERIC(18,2)"
  transaction_date_col := "c2.action_date_utc_1"
  transaction_date_type := "DATE"
  auth_code_col := "c2.authorization_code"
  auth_code_type := "VARCHAR"
  rrn_col := "c2.rrn"
  rrn_type := "VARCHAR"
  payment_method_col := "c2.payment_method_name"
  payment_method_type := "VARCHAR"
  response_code_col := "c2.response_code"
  response_code_type := "VARCHAR"
  response_description_col := "c2.response_description"
  response_description_type := "VARCHAR"
  is_auth_expr := "(UPPER(c2.status) LIKE '%AUTHORISATION%' OR UPPER(c2.status) LIKE '%AUTHORIZATION%')"
  is_capture_expr := "(UPPER(c2.status) LIKE '%CAPTURE%')"
  is_refund_expr := "(UPPER(c2.status) LIKE '%REFUND%')"
  is_void_expr := "(UPPER(c2.status) LIKE '%VOID%' OR UPPER(c2.status) = 'CANCEL')"
  join_m_condition := "c2.order_id = m.gateway_order_id AND c2.payment_online_transaction_id = m.gateway_transaction_id"

/-- The `gateways_config` entry for `payfort`. -/
def payfortCfg : GatewayCfg where
  gwAlias := "pf"
  table_name := "payfort"
  gateway_order_id_type := "INTEGER"
  amount_col := "pf.transaction_amount"
  amount_type := "NUMERIC(18,2)"
  transaction_date_col := "pf.transaction_date"
  transaction_date_type := "DATE"
  auth_code_col := "pf.authorization_code"
  auth_code_type := "VARCHAR"
  rrn_col := "pf.rrn"
  rrn_type := "VARCHAR"
  payment_method_col := "pf.payment_method"
  payment_method_type := "VARCHAR"
  response_code_col := "''"
  response_code_type := "VARCHAR"
  response_description_col := "''"
  response_description_type := "VARCHAR"
  is_auth_expr := "(UPPER(pf.status) LIKE '%AUTHORIZATION%')"
  is_capture_expr := "(UPPER(pf.status) LIKE '%CAPTURE%')"
  is_refund_expr := "(UPPER(pf.status) LIKE '%REFUND%')"
  is_void_expr := "(UPPER(pf.status) LIKE '%VOID%' OR UPPER(pf.status) = 'CANCEL')"
  join_m_condition := "pf.order_id = m.gateway_order_id AND pf.payment_online_transaction_id = m.gateway_transaction_id"

/-- The `gateways_config` entry for `tamara`. -/
def tamaraCfg : GatewayCfg where
  gwAlias := "t"
  table_name := "tamara"
  gateway_order_id_type := "INTEGER"
  amount_col := "t.txn_amount"
  amount_type := "NUMERIC(18,2)"
  transaction_date_col := "t.txn_created_at_gmt_03_00"
  transaction_date_type := "DATE"
  auth_code_col := "''"
  auth_code_type := "VARCHAR"
  rrn_col := "t.tamara_txn_reference"
  rrn_type := "VARCHAR"
  payment_method_col := "t.payment_method"
  payment_method_type := "VARCHAR"
  response_code_col := "''"
  response_code_type := "VARCHAR"
  response_description_col := "''"
  response_description_type := "VARCHAR"
  is_auth_expr := "(t.txn_type = 'AUTHORIZE')"
  is_capture_expr := "FALSE"
  is_refund_expr := "(t.txn_type = 'REFUND')"
  is_void_expr := "(t.txn_type = 'CANCEL')"
  join_m_condition := "t.payment_online_transaction_id = m.gateway_transaction_id"

/-- The `checkout_v1_fields` list used for the gateway-specific columns. -/
def checkoutV1Fields : List String := [
    "c1.transaction_amount::NUMERIC(18,2) AS checkout_v1_amount",
    "c1.status::VARCHAR AS checkout_v1_status",
    "c1.transaction_date::DATE AS checkout_v1_transaction_date",
    "c1.payment_online_transaction_id::VARCHAR AS checkout_v1_payment_id",
    "c1.order_id::INTEGER AS checkout_v1_order_id",
    "c1.authorization_code::VARCHAR AS checkout_v1_authorization_code",
    "c1.rrn::VARCHAR AS checkout_v1_rrn",
    "c1.payment_method::VARCHAR AS checkout_v1_payment_method",
    "c1.issuing_bank::VARCHAR AS checkout_v1_issuing_bank",
    "c1.response_code::VARCHAR AS checkout_v1_response_code",
    "c1.response_description::VARCHAR AS checkout_v1_response_description",
    "c1.processor::VARCHAR AS checkout_v1_processor",
    "c1.card_wallet_type::VARCHAR AS checkout_v1_card_wallet_type",
    "c1.currency::VARCHAR AS checkout_v1_currency"]

/-- The `checkout_v2_fields` list used for the gateway-specific columns. -/
def checkoutV2Fields : List String := [
    "c2.transaction_amount::NUMERIC(18,2) AS checkout_v2_amount",
    "c2.status::VARCHAR AS checkout_v2_status",
    "c2.action_date_utc_1::DATE AS checkout_v2_transaction_date",
    "c2.payment_online_transaction_id::VARCHAR AS checkout_v2_payment_id",
    "c2.order_id::INTEGER AS checkout_v2_order_id",
    "c2.authorization_code::VARCHAR AS checkout_v2_authorization_code",
    "c2.rrn::VARCHAR AS checkout_v2_rrn",
    "c2.payment_method_name::VARCHAR AS checkout_v2_payment_method",
    "c2.response_code::VARCHAR AS checkout_v2_response_code",
    "c2.response_description::VARCHAR AS checkout_v2_response_description",
    "c2.wallet::VARCHAR AS checkout_v2_wallet",
    "c2.currency_symbol::VARCHAR AS checkout_v2_currency",
    "c2.co_badged_card::VARCHAR AS checkout_v2_co_badged_card"]

/-- The `payfort_fields` list used for the gateway-specific columns. -/
def payfortFields : List String := [
    "pf.transaction_amount::NUMERIC(18,2) AS payfort_amount",
    "pf.status::VARCHAR AS payfort_status",
    "pf.transaction_date::DATE AS payfort_transaction_date",
    "pf.payment_online_transaction_id::VARCHAR AS payfort_payment_id",
    "pf.order_id::INTEGER AS payfort_order_id",
    "pf.authorization_code::VARCHAR AS payfort_authorization_code",
    "pf.rrn::VARCHAR AS payfort_rrn",
    "pf.payment_method::VARCHAR AS payfort_payment_method",
    "pf.payment_method_type::VARCHAR AS payfort_payment_method_type",
    "pf.acquirer_name::VARCHAR AS payfort_acquirer_name",
    "pf.merchant_country::VARCHAR AS payfort_merchant_country",
    "pf.channel::VARCHAR AS payfort_channel",
    "pf.mid::VARCHAR AS payfort_mid",
    "pf.currency::VARCHAR AS payfort_currency",
    "pf.time::TIME AS payfort_time"]

/-- The `tamara_fields` list used for the gateway-specific columns. -/
def tamaraFields : List String := [
    "t.txn_amount::NUMERIC(18,2) AS tamara_amount",
    "t.status::VARCHAR AS tamara_status",
    "t.txn_created_at_gmt_03_00::DATE AS tamara_transaction_date",
    "t.payment_online_transaction_id::VARCHAR AS tamara_payment_id",
    "t.order_id::INTEGER AS tamara_portal_order_id",
    "t.tamara_txn_reference::VARCHAR AS tamara_txn_reference",
    "t.payment_method::VARCHAR AS tamara_payment_method",
    "t.customer_name::VARCHAR AS tamara_customer_name",
    "t.txn_type::VARCHAR AS tamara_txn_type",
    "t.txn_settlement_status::VARCHAR AS tamara_txn_settlement_status",
    "t.order_currency::VARCHAR AS tamara_order_currency",
    "t.country_code::VARCHAR AS tamara_country_code",
    "t.store_name::VARCHAR AS tamara_store_name",
    "t.total_amount::NUMERIC(18,2) AS tamara_total_amount",
    "t.order_created_at_gmt_03_00::DATE AS tamara_order_created_at"]

/-- The `ESSENTIAL_FIELDS` list always added to the final SELECT. -/
def essentialFields : List String := [
    "gateway_source",
    "gateway_order_id",
    "gateway_transaction_id",
    "amount",
    "status",
    "transaction_date",
    "authorization_code",
    "rrn",
    "payment_method",
    "response_code",
    "response_description",
    "is_auth",
    "is_capture",
    "is_refund",
    "is_void",
    "final_rrn",
    "final_authorization_code",
    "transaction_analysis",
    "transaction_outcome"]

/-- The fallback `default_fields` used when nothing at all was selected. -/
def defaultFieldsList : List String :=
  ["gateway_order_id", "transaction_date", "amount", "status", "gateway_source"]

/-- The static alias table of `get_field_mapping`. -/
def fieldAliasMapping : List (String × String) := [
    ("bank_authorization_code", "bank_auth_code"),
    ("bank_payment_online_transaction_id", "bank_payment_id"),
    ("bank_transaction_amount", "bank_amount"),
    ("checkout_v1_payment_id", "checkout_v1_payment_online_transaction_id"),
    ("checkout_v2_payment_id", "checkout_v2_payment_online_transaction_id"),
    ("checkout_v2_payment_method", "checkout_v2_payment_method_name"),
    ("checkout_v2_currency", "checkout_v2_currency_symbol"),
    ("payfort_payment_id", "payfort_payment_online_transaction_id"),
    ("tamara_payment_id", "tamara_payment_online_transaction_id"),
    ("tamara_transaction_amount", "tamara_txn_amount"),
    ("tamara_transaction_date", "tamara_txn_created_at_gmt_03_00"),
    ("tamara_order_created_at", "tamara_order_created_at_gmt_03_00"),
    ("portal_order_id", "portal_order_id_val")]

/-- The field list of one gateway (`gw_specific_field_lists`). -/
def gwFieldList (n : String) : List String :=
  if n == "checkout_v1" then checkoutV1Fields
  else if n == "checkout_v2" then checkoutV2Fields
  else if n == "payfort" then payfortFields
  else tamaraFields

/-- The `gateways_config` entry of a gateway. -/
def gatewayCfgFor (n : String) : GatewayCfg :=
  if n == "checkout_v1" then checkoutV1Cfg
  else if n == "checkout_v2" then checkoutV2Cfg
  else if n == "payfort" then payfortCfg
  else tamaraCfg

/-- The `gateway_names_ordered` list driving the UNION ALL. -/
def gatewayNamesOrdered : List String :=
  ["checkout_v1", "checkout_v2", "payfort", "tamara"]

/-- NULL placeholders for another gateway's columns: for each field
definition, the alias after the last ` AS ` and the type after the last
`::` before it, rendered as `NULL::type AS alias`. -/
def nullPlaceholders (fields : List String) : List String :=
  fields.map fun fd =>
    let fieldAlias := pyStrip ((pySplitOn fd " AS ").getLastD "")
    let typePart := pyStrip ((pySplitOn ((pySplitOn fd " AS ").headD "") "::").getLastD "")
    "NULL::" ++ typePart ++ " AS " ++ fieldAlias

/-- The `cols_str` entry for position `key` when generating gateway
`gwName`: the real fields for the gateway itself, NULL placeholders for
the other three. -/
def colsStrFor (gwName key : String) : String :=
  if key == gwName then pyJoin ",\n        " (gwFieldList key)
  else pyJoin ",\n        " (nullPlaceholders (gwFieldList key))

/-- One gateway's SELECT section: the template instantiated with the
gateway's configuration (`gateway_select_template.format(...)`). -/
def gatewaySection (gwName : String) (dateClause : String) : String :=
  let cfg := gatewayCfgFor gwName
  pyFormat gatewaySelectTemplate [
    ("gateway_source_val", gwName),
    ("alias", cfg.gwAlias),
    ("gateway_order_id_type", cfg.gateway_order_id_type),
    ("amount_col", cfg.amount_col), ("amount_type", cfg.amount_type),
    ("transaction_date_col", cfg.transaction_date_col),
    ("transaction_date_type", cfg.transaction_date_type),
    ("auth_code_col", cfg.auth_code_col), ("auth_code_type", cfg.auth_code_type),
    ("rrn_col", cfg.rrn_col), ("rrn_type", cfg.rrn_type),
    ("payment_method_col", cfg.payment_method_col),
    ("payment_method_type", cfg.payment_method_type),
    ("response_code_col", cfg.response_code_col),
    ("response_code_type", cfg.response_code_type),
    ("response_description_col", cfg.response_description_col),
    ("response_description_type", cfg.response_description_type),
    ("is_auth_expr", cfg.is_auth_expr), ("is_capture_expr", cfg.is_capture_expr),
    ("is_refund_expr", cfg.is_refund_expr), ("is_void_expr", cfg.is_void_expr),
    ("checkout_v1_cols_str", colsStrFor gwName "checkout_v1"),
    ("checkout_v2_cols_str", colsStrFor gwName "checkout_v2"),
    ("payfort_cols_str", colsStrFor gwName "payfort"),
    ("tamara_cols_str", colsStrFor gwName "tamara"),
    ("table_name", cfg.table_name),
    ("join_m_condition", cfg.join_m_condition),
    ("date_filter_here", dateClause)]

/-- The four gateway sections joined by UNION ALL, appended to
`query_parts` as a single element. -/
def gatewayAnalysisSql (dateClause : String) : String :=
  pyJoin "\n    UNION ALL\n" (gatewayNamesOrdered.map (gatewaySection · dateClause))

/-- The `date_filter` argument of `generate_payment_analysis_query`. -/
structure DateFilter where
  enabled : Bool
  start_date : String
  end_date : String

/-- The `WHERE p.transaction_date ... BETWEEN` clause: emitted only when a
date filter is supplied, enabled, and both bounds are non-empty. -/
def dateFilterClause (df : Option DateFilter) : String :=
  match df with
  | none => ""
  | some d =>
    if d.enabled && !(d.start_date == "") && !(d.end_date == "") then
      "WHERE p.transaction_date::DATE BETWEEN '" ++ d.start_date
        ++ "'::DATE AND '" ++ d.end_date ++ "'::DATE"
    else ""

/-- The full `query_parts` list of the view definition, assembled exactly
as `generate_payment_analysis_query` does: index prologue, bank indexes
(reconciliation only), view header, the joined gateway UNION as one
element, the ranked/analysis CTE lines, and the final view SELECT. -/
def viewQueryParts (includeRecon : Bool) (df : Option DateFilter) : List String :=
  indexLines ++ (if includeRecon then bankIndexLines else [])
    ++ viewHeaderLines
    ++ [gatewayAnalysisSql (dateFilterClause df)]
    ++ rankedTaLines
    ++ (if includeRecon then reconSelectLines else [noReconSelectLine])

/-- A word character of the capture group (`[a-zA-Z0-9_]`). -/
def isWordChar (c : Char) : Bool :=
  c.isAlpha || c.isDigit || c == '_'

/-- State of the left-to-right scan for the pattern matching `AS`, then
whitespace, then a run of word characters (the capture). -/
inductive AsState where
  | outside
  | seenA
  | afterAS
  | wsRun
  | wordRun (acc : List Char)

/-- One-character-at-a-time implementation of `re.findall` for the pattern
matching `AS`, one-or-more whitespace, then a captured word-character run:
left-to-right and non-overlapping, restarting at the current character when
a partial match fails (only an `A` can begin a new match, so dropping the
failed prefix is exact). -/
def asScan : AsState → List Char → List String
  | .wordRun acc, [] => [String.mk acc.reverse]
  | _, [] => []
  | .outside, c :: rest =>
    asScan (if c == 'A' then .seenA else .outside) rest
  | .seenA, c :: rest =>
    asScan (if c == 'S' then .afterAS else if c == 'A' then .seenA else .outside) rest
  | .afterAS, c :: rest =>
    asScan (if isPySpace c then .wsRun else if c == 'A' then .seenA else .outside) rest
  | .wsRun, c :: rest =>
    asScan (if isWordChar c then .wordRun [c]
            else if isPySpace c then .wsRun else .outside) rest
  | .wordRun acc, c :: rest =>
    if isWordChar c then asScan (.wordRun (c :: acc)) rest
    else String.mk acc.reverse :: asScan (if c == 'A' then .seenA else .outside) rest

/-- The set of `AS <alias>` captures over all view-definition parts
(`extract_view_field_aliases`; the Python set is represented as the list
of captures, used only through membership). -/
def extractViewFieldAliases (parts : List String) : List String :=
  parts.flatMap fun p => asScan .outside p.data

/-- Adding one element to an insertion-ordered Python set. -/
def setAdd (l : List String) (x : String) : List String :=
  if x ∈ l then l else l ++ [x]

/-- The per-source alias a requested field resolves to before the alias
map is applied: portal/metabase/bank/gateway fields get their source
prefix, `portal_order_id` is renamed to its view alias, bank fields are
dropped when reconciliation is off, an unknown source key resolves to
nothing. -/
def aliasFor (includeRecon : Bool) (sourceKey field : String) : Option String :=
  if sourceKey == "portal" then
    let a := if strStartsWith field "portal_" then field else "portal_" ++ field
    some (if a == "portal_order_id" then "portal_order_id_val" else a)
  else if sourceKey == "metabase" then
    some (if strStartsWith field "metabase_" then field else "metabase_" ++ field)
  else if sourceKey == "bank" then
    let a := if strStartsWith field "bank_" then field else "bank_" ++ field
    if includeRecon then some a else none
  else if sourceKey == "analysis" then
    some field
  else if sourceKey == "checkout_v1" || sourceKey == "checkout_v2"
      || sourceKey == "payfort" || sourceKey == "tamara" then
    some (if strStartsWith field (sourceKey ++ "_") then field
          else sourceKey ++ "_" ++ field)
  else none

/-- The `processed_selected_fields` set: the user's requested fields after
prefixing and alias mapping, then all `ESSENTIAL_FIELDS`, then (only if
still empty, which the essential fields prevent) the default field set. -/
def processedSelectedFields (includeRecon : Bool)
    (selected : List (String × List String)) : List String :=
  let s0 := selected.foldl (fun acc p =>
    p.2.foldl (fun acc f =>
      match aliasFor includeRecon p.1 f with
      | none => acc
      | some a =>
        let a := match lookupStr fieldAliasMapping a with
          | some m => m
          | none => a
        setAdd acc a) acc) []
  let s1 := essentialFields.foldl setAdd s0
  if s1 = [] then defaultFieldsList.foldl setAdd s1 else s1

/-- Insertion into an ascending list, for `sorted(...)`. -/
def insertSorted (x : String) : List String → List String
  | [] => [x]
  | y :: rest => if x < y then x :: y :: rest else y :: insertSorted x rest

/-- Python `sorted` on strings (ascending code-point order). -/
def sortStrs (l : List String) : List String :=
  l.foldr insertSorted []

/-- The final validation pass: keep a requested alias only when it is a
view alias, else substitute its mapped alias when that one is, else drop
it silently (`validated_select_aliases`). -/
def validatedSelectAliases (va : List String) : List String → List String
  | [] => []
  | a :: rest =>
    if a ∈ va then a :: validatedSelectAliases va rest
    else match lookupStr fieldAliasMapping a with
      | some m =>
        if m ∈ va then m :: validatedSelectAliases va rest
        else validatedSelectAliases va rest
      | none => validatedSelectAliases va rest

/-- Python `list.remove` (first occurrence). -/
def removeFirst (x : String) : List String → List String
  | [] => []
  | y :: rest => if y == x then rest else y :: removeFirst x rest

/-- The final SELECT statement text, with the DISTINCT ON reordering of
`gateway_order_id` and the optional LIMIT (a limit of 0 is falsy in
Python and emits no LIMIT). -/
def finalSelectStatement (validated : List String) (distinct : Bool)
    (limit : Option Nat) : String :=
  let stmt :=
    if distinct then
      let v := if "gateway_order_id" ∈ validated then
          "gateway_order_id" :: removeFirst "gateway_order_id" validated
        else "gateway_order_id" :: validated
      "SELECT DISTINCT ON (gateway_order_id)\n    " ++ pyJoin ",\n    " v
        ++ "\nFROM payment_analysis_view"
    else
      "SELECT\n    " ++ pyJoin ",\n    " validated ++ "\nFROM payment_analysis_view"
  let stmt := match limit with
    | some n => if n == 0 then stmt else stmt ++ "\nLIMIT " ++ toString n
    | none => stmt
  stmt ++ ";"

/-- The complete output of `generate_payment_analysis_query`: the view
definition followed by the validated final SELECT. -/
def generatePaymentAnalysisQuery (selected : List (String × List String))
    (includeRecon : Bool) (df : Option DateFilter) (limit : Option Nat)
    (distinct : Bool) : String :=
  let parts := viewQueryParts includeRecon df
  let va := extractViewFieldAliases parts
  let validated := validatedSelectAliases va
    (sortStrs (processedSelectedFields includeRecon selected))
  pyJoin "\n" parts ++ ";" ++ "\n\n" ++ finalSelectStatement validated distinct limit

/-! Embedding of the column cleaners of `data_cleaner.py`, at cell level
(every stage of these cleaners is elementwise over the series).  A raw
cell is `Option String` (`none` = missing); cleaned cells are typed
options.  Rationals stand in for floats; the date/time cleaners' final
pandas-inference fallback is a parameter. -/

/-- Character-wise ASCII lowercasing (`str.lower`), kernel-evaluable. -/
def lowerString (s : String) : String :=
  String.mk (s.data.map Char.toLower)

/-- DataCleaner.is_null_string: the string forms treated as nulls by the
date/time cleaners (`none`/`nan` in any case, `<NA>` exactly). -/
def isNullStringTok (s : String) : Bool :=
  lowerString s == "none" || lowerString s == "nan" || s == "<NA>"

/-- Numeric value of a run of decimal digit characters. -/
def natOfDigits (ds : List Char) : Nat :=
  ds.foldl (fun n c => n * 10 + (c.toNat - 48)) 0

/-- Mantissa-and-exponent part of `pdToNumeric`: digits, an optional
fractional part, an optional exponent. -/
def parseDecimal (sign : ℚ) (cs : List Char) : Option ℚ :=
  let ip := cs.takeWhile Char.isDigit
  let r1 := cs.drop ip.length
  let fp := match r1 with
    | '.' :: r => r.takeWhile Char.isDigit
    | _ => []
  let r2 := match r1 with
    | '.' :: r => r.drop (r.takeWhile Char.isDigit).length
    | r => r
  if ip.isEmpty && fp.isEmpty then none
  else
    let mant : ℚ := (natOfDigits ip : ℚ) + (natOfDigits fp : ℚ) / (10 : ℚ) ^ fp.length
    match r2 with
    | [] => some (sign * mant)
    | e :: r3 =>
      if e == 'e' || e == 'E' then
        let esign : Int := match r3 with
          | '-' :: _ => -1
          | _ => 1
        let r4 := match r3 with
          | '+' :: r => r
          | '-' :: r => r
          | r => r
        let ed := r4.takeWhile Char.isDigit
        if ed.isEmpty || !(r4.drop ed.length).isEmpty then none
        else some (sign * mant * (10 : ℚ) ^ (esign * (natOfDigits ed : Int)))
      else none

/-- Model of `pd.to_numeric(..., errors='coerce')` on one string cell.  A
float `NaN` result is a missing value in pandas, so `nan` maps to `none`;
infinities fall outside the rational domain of this embedding and are
treated as coercion failures. -/
def pdToNumeric (s : String) : Option ℚ :=
  let cs := (s.data.dropWhile isPySpace).reverse.dropWhile isPySpace |>.reverse
  match cs with
  | [] => none
  | _ =>
    let sign : ℚ := match cs with
      | '-' :: _ => -1
      | _ => 1
    let rest := match cs with
      | '+' :: r => r
      | '-' :: r => r
      | r => r
    let low := String.mk (rest.map Char.toLower)
    if low == "nan" then none
    else if low == "inf" || low == "infinity" then none
    else parseDecimal sign rest

/-- IntegerCleaner at cell level: `pd.to_numeric(..., errors='coerce')`
(the subsequent `astype(Int64)` is column-level; see
`integerCleanColumn`). -/
def integerCleanCell (c : Option String) : Option ℚ :=
  c.bind pdToNumeric

/-- IntegerCleaner at column level: numeric coercion then
`astype(Int64Dtype())`, which raises when any value is a non-integral
float (the transformer then falls back to the raw column). -/
def integerCleanColumn (cells : List (Option String)) : Except Unit (List (Option Int)) :=
  let qs := cells.map integerCleanCell
  if qs.any (fun q => match q with
      | some q => !(q.den == 1)
      | none => false)
  then .error ()
  else .ok (qs.map (fun q => q.map Rat.num))

/-- FloatCleaner's explicit null-token list. -/
def floatNullTokens : List String :=
  ["", "None", "NULL", "null", "NA", "N/A", "na", "n/a", "<NA>"]

/-- FloatCleaner at cell level: null tokens to null, strip every character
but digits, dot and minus, empty to null, then numeric coercion. -/
def floatCleanCell (c : Option String) : Option ℚ :=
  match c with
  | none => none
  | some s =>
    if floatNullTokens.contains (pyStrip s) then none
    else
      let cleaned := s.data.filter (fun c => c.isDigit || c == '.' || c == '-')
      if cleaned.isEmpty then none
      else pdToNumeric (String.mk cleaned)

/-- Parsed components of a `strptime`-style match, with Python's defaults
(1900-01-01 midnight). -/
structure DateParts where
  y : Nat := 1900
  m : Nat := 1
  d : Nat := 1
  h : Nat := 0
  mi : Nat := 0
  sec : Nat := 0
  used12h : Bool := false
  isPM : Bool := false

/-- Up to `max` digits, at least one (the `\d{1,max}` of Python's
strptime, maximal munch). -/
def parseUpTo (max : Nat) (cs : List Char) : Option (Nat × List Char) :=
  let ds := (cs.takeWhile Char.isDigit).take max
  if ds.isEmpty then none else some (natOfDigits ds, cs.drop ds.length)

/-- Exactly `k` digits (the `\d\d\d\d` of Python's `%Y` directive). -/
def parseExactly (k : Nat) (cs : List Char) : Option (Nat × List Char) :=
  let ds := cs.take k
  if ds.length == k && ds.all Char.isDigit then some (natOfDigits ds, cs.drop k)
  else none

/-- Month abbreviations for `%b`, matched case-insensitively. -/
def monthAbbrevs : List (String × Nat) :=
  [("jan", 1), ("feb", 2), ("mar", 3), ("apr", 4), ("may", 5), ("jun", 6),
   ("jul", 7), ("aug", 8), ("sep", 9), ("oct", 10), ("nov", 11), ("dec", 12)]

/-- Match a month abbreviation (`%b`). -/
def matchMonthAbbrev (cs : List Char) : Option (Nat × List Char) :=
  let pre := String.mk ((cs.take 3).map Char.toLower)
  match monthAbbrevs.find? (fun p => p.1 == pre) with
  | some p => some (p.2, cs.drop 3)
  | none => none

/-- Match `AM`/`PM` (`%p`), case-insensitively; `true` = PM. -/
def matchAmPm (cs : List Char) : Option (Bool × List Char) :=
  let pre := String.mk ((cs.take 2).map Char.toLower)
  if pre == "am" then some (false, cs.drop 2)
  else if pre == "pm" then some (true, cs.drop 2)
  else none

/-- Matcher for the strptime directives the cleaners use
(`%d %m %Y %H %M %S %b %I %p` and literal characters), requiring the
whole input to be consumed.  `%Y` takes exactly four digits, as Python's
`\d\d\d\d` regex does; the two-digit numeric directives take up to two
digits greedily without backtracking, which agrees with Python's
alternation regexes on separator-delimited formats and on eight-digit
`%Y%m%d` inputs (on ambiguous compact digit strings Python can
additionally backtrack to a one-digit month or day; no theorem below
evaluates such an input). -/
def strptimeAux : List Char → List Char → DateParts → Option DateParts
  | [], [], p => some p
  | [], _ :: _, _ => none
  | '%' :: 'd' :: fr, cs, p =>
    (parseUpTo 2 cs).bind fun r => strptimeAux fr r.2 { p with d := r.1 }
  | '%' :: 'm' :: fr, cs, p =>
    (parseUpTo 2 cs).bind fun r => strptimeAux fr r.2 { p with m := r.1 }
  | '%' :: 'Y' :: fr, cs, p =>
    (parseExactly 4 cs).bind fun r => strptimeAux fr r.2 { p with y := r.1 }
  | '%' :: 'H' :: fr, cs, p =>
    (parseUpTo 2 cs).bind fun r => strptimeAux fr r.2 { p with h := r.1 }
  | '%' :: 'M' :: fr, cs, p =>
    (parseUpTo 2 cs).bind fun r => strptimeAux fr r.2 { p with mi := r.1 }
  | '%' :: 'S' :: fr, cs, p =>
    (parseUpTo 2 cs).bind fun r => strptimeAux fr r.2 { p with sec := r.1 }
  | '%' :: 'b' :: fr, cs, p =>
    (matchMonthAbbrev cs).bind fun r => strptimeAux fr r.2 { p with m := r.1 }
  | '%' :: 'I' :: fr, cs, p =>
    (parseUpTo 2 cs).bind fun r => strptimeAux fr r.2 { p with h := r.1, used12h := true }
  | '%' :: 'p' :: fr, cs, p =>
    (matchAmPm cs).bind fun r => strptimeAux fr r.2 { p with isPM := r.1 }
  | '%' :: _ :: _, _, _ => none
  | ['%'], _, _ => none
  | _ :: _, [], _ => none
  | c :: fr, x :: cs, p => if c == x then strptimeAux fr cs p else none

/-- Days of a Gregorian month (for the range check Python's `datetime`
constructor applies). -/
def daysInMonth (y m : Nat) : Nat :=
  if m == 2 then
    if (y % 4 == 0 && !(y % 100 == 0)) || y % 400 == 0 then 29 else 28
  else if m == 4 || m == 6 || m == 9 || m == 11 then 30
  else 31

/-- Range validation as strptime and the `datetime` constructor apply it
(month, day against the month's length, year at least 1, time fields). -/
def validParts (p : DateParts) : Bool :=
  1 ≤ p.m && p.m ≤ 12 && 1 ≤ p.d && p.d ≤ daysInMonth p.y p.m && 1 ≤ p.y
    && p.mi ≤ 59 && p.sec ≤ 59
    && (if p.used12h then 1 ≤ p.h && p.h ≤ 12 else p.h ≤ 23)

/-- Hour of day, resolving `%I`/`%p` as strptime does. -/
def partsHour24 (p : DateParts) : Nat :=
  if p.used12h then p.h % 12 + (if p.isPM then 12 else 0) else p.h

/-- Full strptime match of a format against a string. -/
def strptimeParts (fmt s : String) : Option DateParts :=
  (strptimeAux fmt.data s.data {}).bind fun p =>
    if validParts p then some p else none

/-- Days from 1970-01-01 of a Gregorian civil date (standard era-based
calendar algorithm; all intermediate quotients are of non-negative
values, so truncating division is exact). -/
def daysFromCivil (y m d : Int) : Int :=
  let y := if m ≤ 2 then y - 1 else y
  let era := (if 0 ≤ y then y else y - 399) / 400
  let yoe := y - era * 400
  let mp := (m + 9) % 12
  let doy := (153 * mp + 2) / 5 + d - 1
  let doe := yoe * 365 + yoe / 4 - yoe / 100 + doy
  era * 146097 + doe - 719468

/-- Pandas `Timestamp` bounds: the value (in days) must fit a signed
64-bit nanosecond payload (`-2^63 + 1 … 2^63 - 1` nanoseconds; `-2^63`
encodes `NaT`).  Out-of-bounds datetimes are coerced to null by
`pd.to_datetime(..., errors='coerce')`. -/
def tsBoundOk (v : ℚ) : Bool :=
  decide (-(9223372036854775807 : ℚ) ≤ v * 86400000000000
    ∧ v * 86400000000000 ≤ (9223372036854775807 : ℚ))

/-- Timestamp (days since 1970-01-01, time of day as a day fraction) of a
strptime match, as `pd.to_datetime(..., format=...)` produces; a parsed
datetime outside the `Timestamp` bounds is coerced to null. -/
def strptimeDateValue (fmt s : String) : Option ℚ :=
  (strptimeParts fmt s).bind fun p =>
    let v : ℚ := (daysFromCivil p.y p.m p.d : ℚ)
      + ((partsHour24 p * 3600 + p.mi * 60 + p.sec : Nat) : ℚ) / 86400
    if tsBoundOk v then some v else none

/-- Seconds of day of a strptime time match. -/
def strptimeTimeValue (fmt s : String) : Option ℚ :=
  (strptimeParts fmt s).map fun p =>
    ((partsHour24 p * 3600 + p.mi * 60 + p.sec : Nat) : ℚ)

/-- First date format of a list that matches, in order (each stage of the
date cleaner only touches cells still unresolved). -/
def tryDateFormats : List String → String → Option ℚ
  | [], _ => none
  | f :: rest, s =>
    match strptimeDateValue f s with
    | some v => some v
    | none => tryDateFormats rest s

/-- First time format of a list that matches, in order. -/
def tryTimeFormats : List String → String → Option ℚ
  | [], _ => none
  | f :: rest, s =>
    match strptimeTimeValue f s with
    | some v => some v
    | none => tryTimeFormats rest s

/-- The source-specific ordered date format lists (`source_formats`). -/
def sourceFormatsFor (src : String) : List String :=
  if src == "tamara" then ["%m/%d/%Y %H:%M", "%m/%d/%Y"]
  else if src == "payfort" then ["%Y-%m-%d"]
  else if src == "metabase" then ["%Y-%m-%d %H:%M:%S", "%m/%d/%Y"]
  else if src == "checkout_v1" then ["%m/%d/%Y", "%Y-%m-%d %H:%M:%S"]
  else if src == "checkout_v2" then ["%Y-%m-%d %H:%M:%S", "%m/%d/%Y"]
  else if src == "bank" then ["%d-%m-%Y"]
  else if src == "portal" then ["%d/%m/%Y"]
  else []

/-- The generic ordered date format list of the date cleaner. -/
def genericDateFormats : List String :=
  ["%d/%m/%Y", "%m/%d/%Y", "%Y-%m-%d", "%d-%m-%Y", "%Y/%m/%d", "%d.%m.%Y",
   "%m.%d.%Y", "%d %b %Y", "%b %d %Y", "%Y%m%d", "%d/%m/%Y %H:%M:%S",
   "%m/%d/%Y %H:%M:%S", "%Y-%m-%d %H:%M:%S"]

/-- Every strptime format any date-cleaner stage can try. -/
def allUsedDateFormats : List String :=
  ["%m/%d/%Y %H:%M", "%m/%d/%Y", "%Y-%m-%d", "%Y-%m-%d %H:%M:%S", "%d-%m-%Y",
   "%d/%m/%Y", "%Y/%m/%d", "%d.%m.%Y", "%m.%d.%Y", "%d %b %Y", "%b %d %Y",
   "%Y%m%d", "%d/%m/%Y %H:%M:%S", "%m/%d/%Y %H:%M:%S"]

/-- The date cleaner's Excel-serial detection, regex matching digits then
an optional dot and further digits. -/
def serialMatch (s : String) : Bool :=
  let ds := s.data.takeWhile Char.isDigit
  let rest := s.data.drop ds.length
  !ds.isEmpty && (rest.isEmpty
    || (rest.headD ' ' == '.' && (rest.drop 1).all Char.isDigit))

/-- Float value of a matched serial string (integer part, optional
fraction). -/
def parseSerialQ (s : String) : ℚ :=
  let ds := s.data.takeWhile Char.isDigit
  let rest := s.data.drop ds.length
  let fs := (rest.drop 1).takeWhile Char.isDigit
  if fs.isEmpty then (natOfDigits ds : ℚ)
  else (natOfDigits ds : ℚ) + (natOfDigits fs : ℚ) / (10 : ℚ) ^ fs.length

/-- Day number of the Excel epoch 1899-12-30 used by the date cleaner. -/
def excelEpochDay : Int :=
  daysFromCivil 1899 12 30

/-- The Excel-serial branch of the date cleaner: epoch plus the serial,
reduced by one when the serial exceeds 59 (the 1900 leap-year
adjustment). -/
def excelSerialValue (days : ℚ) : ℚ :=
  (excelEpochDay : ℚ) + (if days > 59 then days - 1 else days)

/-- Whether the serial conversion's `pd.Timedelta(days=...)` construction
succeeds: the adjusted day count must fit a signed 64-bit nanosecond
payload (`Timedelta.max` is 106751 days 23:47:16.854775807).  Beyond it
the construction raises, the cleaner's per-cell `except` swallows the
error, and the cell falls through to the later parsing stages.  (The
subsequent epoch addition never overflows `Timestamp` on its own: the
1899-12-30 base plus at most `Timedelta.max` stays below 2262-04-11.
Exact rational arithmetic stands in for Python float arithmetic.) -/
def excelSerialInBounds (days : ℚ) : Bool :=
  decide ((if days > 59 then days - 1 else days) * 86400000000000
    ≤ (9223372036854775807 : ℚ))

/-- DateCleaner at cell level: null tokens, the Excel-serial branch (only
when the `Timedelta` construction is in bounds — otherwise the cell falls
through), source-specific formats, generic formats, then the pandas
general inference fallback (`fuzzy`, a parameter of the embedding). -/
def dateCleanCell (src : String) (fuzzy : String → Option ℚ)
    (c : Option String) : Option ℚ :=
  match c with
  | none => none
  | some s =>
    if isNullStringTok s then none
    else if serialMatch s && excelSerialInBounds (parseSerialQ s) then
      some (excelSerialValue (parseSerialQ s))
    else match tryDateFormats (sourceFormatsFor src) s with
      | some v => some v
      | none =>
        match tryDateFormats genericDateFormats s with
        | some v => some v
        | none => fuzzy s

/-- The time cleaner's Excel-fraction detection, regex matching optional
digits, a dot, then at least one digit. -/
def timeSerialMatch (s : String) : Bool :=
  let ds := s.data.takeWhile Char.isDigit
  let rest := s.data.drop ds.length
  match rest with
  | '.' :: fs => !fs.isEmpty && fs.all Char.isDigit
  | _ => false

/-- The time format list of the time cleaner's last stage. -/
def timeFormatsList : List String :=
  ["%H:%M:%S", "%H:%M", "%I:%M:%S %p", "%I:%M %p"]

/-- TimeCleaner at cell level (seconds of day): null tokens, the strict
`%H:%M:%S` first pass, the Excel fraction-of-day branch (truncated to
whole seconds as `int(...)` does), then the remaining formats on the
stripped value. -/
def timeCleanCell (c : Option String) : Option ℚ :=
  match c with
  | none => none
  | some s =>
    if isNullStringTok s then none
    else match strptimeTimeValue "%H:%M:%S" s with
      | some v => some v
      | none =>
        if timeSerialMatch s then
          let f := parseSerialQ s
          let frac := f - (⌊f⌋ : ℚ)
          some ((⌊frac * 86400⌋ : ℚ))
        else tryTimeFormats timeFormatsList (pyStrip s)

/-- The Excel-formula artifact unwrap of the string cleaner: a cell of the
shape `="text"` (text without a newline, as the regex dot excludes one)
becomes `text`. -/
def excelFormulaUnwrap (s : String) : String :=
  match s.data with
  | '=' :: '"' :: rest =>
    match rest.reverse with
    | '"' :: innerRev =>
      if (innerRev.reverse).contains '\n' then s
      else String.mk innerRev.reverse
    | _ => s
  | _ => s

/-- Newline normalisation of the string cleaner: each of `\r\n`, `\n\r`,
`\r`, `\n` (in that alternation order) becomes one space. -/
def collapseNewlines : List Char → List Char
  | [] => []
  | '\r' :: '\n' :: rest => ' ' :: collapseNewlines rest
  | '\n' :: '\r' :: rest => ' ' :: collapseNewlines rest
  | '\r' :: rest => ' ' :: collapseNewlines rest
  | '\n' :: rest => ' ' :: collapseNewlines rest
  | c :: rest => c :: collapseNewlines rest

/-- A control character removed by the string cleaner
(`\x00`-`\x1F` and `\x7F`). -/
def isCtl (c : Char) : Bool :=
  c.toNat ≤ 31 || c.toNat == 127

/-- StringCleaner at cell level: unwrap the Excel formula artifact, strip,
newlines to spaces, remove control characters.  String null tokens are
NOT nulled — only an actually-missing value stays missing. -/
def stringCleanCell (c : Option String) : Option String :=
  match c with
  | none => none
  | some s =>
    let s := excelFormulaUnwrap s
    let s := pyStrip s
    let s := String.mk (collapseNewlines s.data)
    some (String.mk (s.data.filter (fun c => !isCtl c)))

/-- Python `str.replace` (non-overlapping, left to right). -/
def pyReplace (s old new : String) : String :=
  pyJoin new (pySplitOn s old)

/-- The mis-decoded Arabic byte sequences the text cleaner repairs.  (In
the source each replacement runs only when some row of the column
contains the sequence; replacing unconditionally is cell-wise
equivalent, since replacing an absent substring is the identity.) -/
def arabicReplacements : List (String × String) :=
  [("Ã˜", "ا"), ("Ù†", "ن"), ("Ø¹", "ع"), ("Ø§", "ا"), ("Ù…", "م")]

/-- Whitespace-run collapsing of the text cleaner, one space per run. -/
def collapseWsAux (inRun : Bool) : List Char → List Char
  | [] => []
  | c :: rest =>
    if isPySpace c then
      if inRun then collapseWsAux true rest
      else ' ' :: collapseWsAux true rest
    else c :: collapseWsAux false rest

/-- TextCleaner at cell level: string cleaning, encoding repairs, HTML
entities, whitespace collapsing. -/
def textCleanCell (c : Option String) : Option String :=
  (stringCleanCell c).map fun s =>
    let s := arabicReplacements.foldl (fun s p => pyReplace s p.1 p.2) s
    let s := pyReplace s "&amp;" "&"
    let s := pyReplace s "&lt;" "<"
    let s := pyReplace s "&gt;" ">"
    let s := pyReplace s "&quot;" "\""
    String.mk (collapseWsAux false s.data)

/-- The boolean cleaner's true vocabulary. -/
def trueValues : List String :=
  ["yes", "y", "true", "t", "1", "on", "completed", "success"]

/-- The boolean cleaner's false vocabulary. -/
def falseValues : List String :=
  ["no", "n", "false", "f", "0", "off", "failed", "failure"]

/-- BooleanCleaner at cell level: `astype(str).str.lower()` (a missing
value stringifies to `nan`) matched against the fixed vocabularies;
unmapped values stay null. -/
def booleanCleanCell (c : Option String) : Option Bool :=
  let s := lowerString (match c with
    | none => "nan"
    | some s => s)
  if trueValues.contains s then some true
  else if falseValues.contains s then some false
  else none

/-- A hexadecimal digit. -/
def isHexDigit (c : Char) : Bool :=
  c.isDigit || ('a' ≤ c && c ≤ 'f') || ('A' ≤ c && c ≤ 'F')

/-- Strip the given characters from both ends (`str.strip('...')`). -/
def trimChars (bad : List Char) (s : String) : String :=
  String.mk (((s.data.dropWhile (bad.contains ·)).reverse.dropWhile
    (bad.contains ·)).reverse)

/-- UuidCleaner at cell level: `uuid.UUID(str(val).strip())` — drop
`urn:`/`uuid:` markers, outer braces and hyphens, require 32 hex digits —
canonicalised to lowercase 8-4-4-4-12; anything else becomes null. -/
def uuidCleanCell (c : Option String) : Option String :=
  let raw := match c with
    | none => "nan"
    | some s => s
  let t := pyStrip raw
  let t := pyReplace (pyReplace t "urn:" "") "uuid:" ""
  let t := trimChars ['{', '}'] t
  let hx := t.data.filter (fun c => !(c == '-'))
  if hx.length == 32 && hx.all isHexDigit then
    let h := hx.map Char.toLower
    some (String.mk (h.take 8 ++ '-' :: ((h.drop 8).take 4 ++ '-' ::
      ((h.drop 12).take 4 ++ '-' :: ((h.drop 16).take 4 ++ '-' :: h.drop 20)))))
  else none

/-- All case variants of one character (ASCII case folding). -/
def caseVariantsChar (c : Char) : List Char :=
  if c.toUpper == c.toLower then [c] else [c.toUpper, c.toLower]

/-- All case variants of a character list. -/
def caseVariantsAux : List Char → List (List Char)
  | [] => [[]]
  | c :: rest => (caseVariantsAux rest).flatMap fun t =>
      (caseVariantsChar c).map (· :: t)

/-- All case variants of a string. -/
def caseVariants (s : String) : List String :=
  (caseVariantsAux s.data).map String.mk

/-- Every case variant of the recognized null tokens
`""`, `"None"`, `"NaN"`, `"NULL"`, `"<NA>"`. -/
def nullTokenVariants : List String :=
  ["", "None", "NaN", "NULL", "<NA>"].flatMap caseVariants

/-! Embedding of the type inference of `generate_config.py` and of the
batch-error policy of `FileProcessor._process_file_in_batches`. -/

/-- Python substring containment `sub in s` (always true for the empty
substring). -/
def strContains (s sub : String) : Bool :=
  if sub == "" then true
  else !((pySplitOn s sub).length == 1)

/-- The `FIELD_TYPE_OVERRIDES` table, consulted first by `guess_py_type`. -/
def fieldTypeOverrides : List (String × String) :=
  [("order_id", "integer"), ("portal_order_id", "integer"),
   ("gateway_order_id", "integer"), ("rrn", "string"), ("amount", "float"),
   ("transaction_amount", "float"), ("total", "float"), ("fees", "float"),
   ("cash", "float"), ("wallet_paid_amount", "float"), ("chef_total", "float"),
   ("commission_amount", "float"), ("transaction_date", "date"),
   ("action_date_utc_1", "date"), ("txn_created_at_gmt_03_00", "date"),
   ("posting_date", "date"), ("time", "time")]

/-- The `DATE_COLUMNS` set of always-date column names. -/
def dateColumns : List String :=
  ["transaction_date", "action_date_utc_1", "txn_created_at_gmt_03_00",
   "posting_date", "order_created_at_gmt_03_00", "delivery_date",
   "settlement_date", "created_at", "updated_at", "payment_date",
   "processing_date", "authorization_date", "capture_date"]

/-- What `guess_py_type` reads of a sampled pandas Series: its label, its
values (with nulls) and its dtype classification. -/
structure PdSeriesInfo where
  name : String
  values : List (Option String)
  isIntegerDtype : Bool
  isFloatDtype : Bool
  isDatetimeDtype : Bool

/-- The semantic-type inference `guess_py_type`: explicit per-canonical-name
override table first, then date-keyword names, then value/dtype sniffing,
then the fuzzy date-parse vote over a small sample (`looksLikeDate` models
`dateutil`'s parser, `sample` the seeded random sample — both collaborators
of the inference, passed as parameters). -/
def guessPyType (looksLikeDate : String → Bool) (sample : List String → List String)
    (series : PdSeriesInfo) (mappedName : String) : String :=
  match lookupStr fieldTypeOverrides mappedName with
  | some t => t
  | none =>
    if dateColumns.any (fun d => strContains mappedName d)
        || strContains mappedName "date" then "date"
    else
      let s := series.values.filterMap id
      if s.isEmpty then "string"
      else if ["card", "cc", "bin", "pan", "masked"].any
          (fun t => strContains (lowerString series.name) t) then "string"
      else if (s.headD "").data.contains '*' && (s.headD "").data.any Char.isDigit
          then "string"
      else if ["amount", "total", "fees", "cash"].any
          (fun t => strContains (lowerString series.name) t) then "float"
      else if series.isIntegerDtype then "integer"
      else if series.isFloatDtype then "float"
      else if series.isDatetimeDtype then "date"
      else
        let samples := sample s
        let parsed := (samples.filter looksLikeDate).length
        if samples.length / 2 ≤ parsed then "date" else "string"

/-- The per-source post-pass of `build` that re-enforces type consistency
by canonical name (date keywords, id fields, `rrn`, amount fields). -/
def enforceTypeConsistency (mappedName pyType : String) : String :=
  if dateColumns.contains mappedName || strContains mappedName "date" then "date"
  else if mappedName == "order_id" || mappedName == "portal_order_id"
      || mappedName == "gateway_order_id" then "integer"
  else if mappedName == "rrn" then "string"
  else if ["amount", "total", "fee", "cash"].any
      (fun t => strContains mappedName t) then "float"
  else pyType

/-- Outcome of one data-processing batch of a file. -/
inductive BatchResult where
  | ok (rows : Nat)
  | err
deriving DecidableEq

/-- Outcome of `_process_file_in_batches`: either the batch loop finished,
or the fail-fast `RuntimeError` aborted it (in which case the outer
handler removes the partial output file). -/
inductive RunOutcome where
  | finished (errorCount totalRows : Nat)
  | abortedRun (errorCount totalRows : Nat)
deriving DecidableEq

/-- The batch loop with its running counters: a successful batch adds its
rows; an erroring batch increments `error_count` and, when that count is
exactly 1, raises the fail-fast `RuntimeError`. -/
def processBatchesFrom (errorCount totalRows : Nat) :
    List BatchResult → RunOutcome
  | [] => .finished errorCount totalRows
  | .ok n :: rest => processBatchesFrom errorCount (totalRows + n) rest
  | .err :: rest =>
    if errorCount + 1 == 1 then .abortedRun (errorCount + 1) totalRows
    else processBatchesFrom (errorCount + 1) totalRows rest

/-- `process_file` resets both counters before processing a file's
batches. -/
def processFileBatches (batches : List BatchResult) : RunOutcome :=
  processBatchesFrom 0 0 batches

/-- Whether the output file survives the run (the exception handler of
`_process_file_in_batches` removes the partial output when the loop
aborts). -/
def outputKept : RunOutcome → Bool
  | .finished _ _ => true
  | .abortedRun _ _ => false

/-- Rows contributed by the successful batches of a list. -/
def rowsOf : List BatchResult → Nat
  | [] => 0
  | .ok n :: rest => n + rowsOf rest
  | .err :: rest => rowsOf rest

/-! Embedding of the schema-driven transformer (`DataFrameTransformer`) and
the schema conformance step (`FileProcessor._ensure_schema_conformance`,
`SchemaManager.create_target_schema`). -/

/-- One column entry of a source's config (`columns` values: the original
raw header, the canonical name, the semantic type). -/
structure ColumnSpec where
  original : String
  map_to : String
  py_type : String
deriving DecidableEq

/-- A PyArrow field type of the target schema. -/
inductive ArrowType where
  | int64
  | float64
  | date32
  | time32s
  | boolTy
  | stringTy
  | timestampNs
deriving DecidableEq

/-- The semantic-type → Arrow-type mapping of `create_target_schema`
(string for every text-like type). -/
def arrowTypeOf (pyType : String) : ArrowType :=
  if pyType == "integer" then .int64
  else if pyType == "float" then .float64
  else if pyType == "date" then .date32
  else if pyType == "time" then .time32s
  else if pyType == "boolean" then .boolTy
  else .stringTy

/-- The target schema: the config's canonical columns in order, then the
two metadata fields. -/
def createTargetSchema (config : List ColumnSpec) : List (String × ArrowType) :=
  config.map (fun c => (c.map_to, arrowTypeOf c.py_type))
    ++ [("data_source", .stringTy), ("processed_at", .timestampNs)]

/-- The schema's column-name list, in schema order. -/
def targetColumnNames (config : List ColumnSpec) : List String :=
  (createTargetSchema config).map (·.1)

/-- A cleaned cell value. -/
inductive PdVal where
  | i (n : Int)
  | q (x : ℚ)
  | s (t : String)
  | b (v : Bool)
  | ts (x : ℚ)
deriving DecidableEq

/-- The pandas dtype of a column. -/
inductive PdDtype where
  | int64D
  | float64D
  | datetimeD
  | boolD
  | stringD
  | objectD
  | timeObjD
deriving DecidableEq

/-- A dtyped column of nullable cells. -/
structure Column where
  dtype : PdDtype
  cells : List (Option PdVal)
deriving DecidableEq

/-- A raw frame: original header names to raw string cells. -/
abbrev RawTable := List (String × List (Option String))

/-- A cleaned frame: column names to dtyped columns, in column order. -/
abbrev CleanTable := List (String × Column)

/-- `_filter_columns`: keep exactly the raw columns referenced by some
config entry (missing and extra headers are only logged).  The Python
builds the kept list from a set intersection whose order the final schema
conformance makes irrelevant; this embedding keeps the raw order. -/
def filterColumns (config : List ColumnSpec) (df : RawTable) : RawTable :=
  df.filter (fun c => config.any (fun spec => spec.original == c.1))

/-- `_remove_null_bytes` on the (all-object) raw columns: strip the
control characters from every cell.  `astype(str)` cannot resurrect
missing cells here: the CSV reader runs with `na_filter=False`, so raw
cells are never missing. -/
def removeNullBytes (df : RawTable) : RawTable :=
  df.map (fun c => (c.1, c.2.map (Option.map
    (fun s => String.mk (s.data.filter (fun ch => !isCtl ch))))))

/-- Lookup of a named column (`df[n]`), first occurrence. -/
def lookupCol (df : CleanTable) (n : String) : Option Column :=
  (df.find? (fun c => c.1 == n)).map (·.2)

/-- Lookup of a raw column by header. -/
def lookupRaw (df : RawTable) (n : String) : Option (List (Option String)) :=
  (df.find? (fun c => c.1 == n)).map (·.2)

/-- Pandas column assignment `df[n] = col`: overwrite in place when the
name exists, append at the end otherwise. -/
def upsertCol (df : CleanTable) (n : String) (col : Column) : CleanTable :=
  if df.any (fun c => c.1 == n) then
    df.map (fun c => if c.1 == n then (n, col) else c)
  else df ++ [(n, col)]

/-- A raw column carried over as an object column (the transformer's
fallback when a cleaner raises, and the empty-input early return). -/
def rawAsColumn (cells : List (Option String)) : Column :=
  ⟨.objectD, cells.map (Option.map PdVal.s)⟩

/-- TimeCleaner at column level.  Reading the source: `problematic` is
assigned only under `if still_null_mask.any()`, yet used unconditionally
right after — so when the column has valid values and the first
`%H:%M:%S` pass resolved all of them, the cleaner raises `NameError`
(caught by the transformer).  Otherwise the stages are elementwise
`timeCleanCell`, with the all-null early return. -/
def timeCleanColumn (cells : List (Option String)) : Except Unit Column :=
  let validEmpty := cells.all (fun c => match c with
    | none => true
    | some s => isNullStringTok s)
  if validEmpty then .ok ⟨.timeObjD, cells.map (fun _ => none)⟩
  else
    let anyStillNull := cells.any (fun c => match c with
      | none => false
      | some s => !isNullStringTok s && (strptimeTimeValue "%H:%M:%S" s).isNone)
    if anyStillNull then
      .ok ⟨.timeObjD, cells.map (fun c => (timeCleanCell c).map PdVal.q)⟩
    else .error ()

/-- The `DATA_CLEANERS` dispatch (`_transform_columns` falls back to the
string cleaner for an unknown type); integer and time cleaning can raise
at column level. -/
def cleanColumnByType (pyType src : String) (fuzzy : String → Option ℚ)
    (cells : List (Option String)) : Except Unit Column :=
  if pyType == "integer" then
    (integerCleanColumn cells).map (fun l => ⟨.int64D, l.map (Option.map PdVal.i)⟩)
  else if pyType == "float" then
    .ok ⟨.float64D, cells.map (fun c => (floatCleanCell c).map PdVal.q)⟩
  else if pyType == "date" then
    .ok ⟨.datetimeD, cells.map (fun c => (dateCleanCell src fuzzy c).map PdVal.ts)⟩
  else if pyType == "time" then timeCleanColumn cells
  else if pyType == "boolean" then
    .ok ⟨.boolD, cells.map (fun c => (booleanCleanCell c).map PdVal.b)⟩
  else if pyType == "uuid" then
    .ok ⟨.objectD, cells.map (fun c => (uuidCleanCell c).map PdVal.s)⟩
  else if pyType == "text" then
    .ok ⟨.objectD, cells.map (fun c => (textCleanCell c).map PdVal.s)⟩
  else
    .ok ⟨.objectD, cells.map (fun c => (stringCleanCell c).map PdVal.s)⟩

/-- `_transform_columns`: an empty frame (no kept column, or no row) is
returned unchanged; otherwise each configured column present in the input
is cleaned by its type's cleaner and stored under its canonical name, the
raw column being copied unchanged when the cleaner raises.  `nrows` is
the frame's index length. -/
def transformColumns (config : List ColumnSpec) (src : String)
    (fuzzy : String → Option ℚ) (nrows : Nat) (df : RawTable) : CleanTable :=
  if df.isEmpty || nrows == 0 then
    df.map (fun c => (c.1, rawAsColumn c.2))
  else
    config.foldl (fun acc spec =>
      match lookupRaw df spec.original with
      | none => acc
      | some cells =>
        match cleanColumnByType spec.py_type src fuzzy cells with
        | .ok col => upsertCol acc spec.map_to col
        | .error _ => upsertCol acc spec.map_to (rawAsColumn cells)) []

/-- `_add_metadata`: the constant `data_source` column and the
`processed_at` timestamp column (`now`). -/
def addMetadata (src : String) (now : ℚ) (nrows : Nat) (df : CleanTable) :
    CleanTable :=
  upsertCol
    (upsertCol df "data_source" ⟨.objectD, List.replicate nrows (some (.s src))⟩)
    "processed_at" ⟨.datetimeD, List.replicate nrows (some (.ts now))⟩

/-- The typed all-null column back-filled for a missing schema column
(nullable Int64 / Float64 / boolean, datetime64 for every temporal arrow
type, nullable string otherwise). -/
def nullColumnFor (ty : ArrowType) (nrows : Nat) : Column :=
  match ty with
  | .int64 => ⟨.int64D, List.replicate nrows none⟩
  | .float64 => ⟨.float64D, List.replicate nrows none⟩
  | .boolTy => ⟨.boolD, List.replicate nrows none⟩
  | .date32 => ⟨.datetimeD, List.replicate nrows none⟩
  | .time32s => ⟨.datetimeD, List.replicate nrows none⟩
  | .timestampNs => ⟨.datetimeD, List.replicate nrows none⟩
  | .stringTy => ⟨.stringD, List.replicate nrows none⟩

/-- Cell-level stand-in for the dtype fix-ups (`to_numeric(...).astype`,
`astype`, `to_datetime(..., errors='coerce')`) applied to an existing
column whose dtype disagrees with the schema: values of the target kind
pass through, strings coerce numerically, others null out; a string cast
keeps values as they are (in the pipeline only string-valued object
columns ever reach it). -/
def castCell (target : PdDtype) (c : Option PdVal) : Option PdVal :=
  match c with
  | none => none
  | some v =>
    match target, v with
    | .int64D, .i n => some (.i n)
    | .int64D, .q x => if x.den == 1 then some (.i x.num) else none
    | .int64D, .s t =>
      (pdToNumeric t).bind (fun x => if x.den == 1 then some (.i x.num) else none)
    | .int64D, _ => none
    | .float64D, .q x => some (.q x)
    | .float64D, .i n => some (.q n)
    | .float64D, .s t => (pdToNumeric t).map .q
    | .float64D, _ => none
    | .boolD, .b w => some (.b w)
    | .boolD, _ => none
    | .datetimeD, .ts x => some (.ts x)
    | .datetimeD, _ => none
    | _, v => some v

/-- The dtype-ensuring branch of `_ensure_schema_conformance` for an
existing column: integer/float/boolean/string arrow types convert the
column when its dtype disagrees, a date type goes through
`to_datetime`, a time type is left alone, and a timestamp type matches no
branch and is also left alone. -/
def ensureDtypeCol (ty : ArrowType) (col : Column) : Column :=
  match ty with
  | .int64 =>
    if col.dtype == .int64D then col
    else ⟨.int64D, col.cells.map (castCell .int64D)⟩
  | .float64 =>
    if col.dtype == .float64D then col
    else ⟨.float64D, col.cells.map (castCell .float64D)⟩
  | .boolTy =>
    if col.dtype == .boolD then col
    else ⟨.boolD, col.cells.map (castCell .boolD)⟩
  | .date32 =>
    if col.dtype == .datetimeD then col
    else ⟨.datetimeD, col.cells.map (castCell .datetimeD)⟩
  | .time32s => col
  | .timestampNs => col
  | .stringTy =>
    if col.dtype == .stringD then col
    else ⟨.stringD, col.cells.map (castCell .stringD)⟩

/-- One schema field of the conformance pass (`cur` is the set of column
names captured before the loop, which the source consults for the
missing-column checks): metadata columns are re-added (with the source id
resp. a fresh timestamp) only when missing; a missing data column is
back-filled as a typed all-null column; an existing data column has its
dtype ensured.  The frame assignments are pandas upserts.  (The final
`none` case is unreachable: columns are never removed, so a name in `cur`
is still present.) -/
def conformField (src : String) (now : ℚ) (nrows : Nat) (cur : List String)
    (df : CleanTable) (field : String × ArrowType) : CleanTable :=
  if field.1 == "data_source" || field.1 == "processed_at" then
    if cur.contains field.1 then df
    else if field.1 == "data_source" then
      upsertCol df "data_source" ⟨.objectD, List.replicate nrows (some (.s src))⟩
    else
      upsertCol df "processed_at" ⟨.datetimeD, List.replicate nrows (some (.ts now))⟩
  else if !(cur.contains field.1) then
    upsertCol df field.1 (nullColumnFor field.2 nrows)
  else
    match lookupCol df field.1 with
    | some col => upsertCol df field.1 (ensureDtypeCol field.2 col)
    | none => df

/-- `_ensure_schema_conformance`: process every schema field, then select
the schema's column names (those present) in schema order, dropping
extras. -/
def ensureSchemaConformance (src : String) (now : ℚ) (nrows : Nat)
    (schema : List (String × ArrowType)) (columnNames : List String)
    (df : CleanTable) : CleanTable :=
  let cur := df.map (·.1)
  let stepped := schema.foldl (conformField src now nrows cur) df
  columnNames.filterMap (fun n => (lookupCol stepped n).map (fun c => (n, c)))

/-- One batch's full normalization: filter, null-byte strip, per-column
cleaning, metadata, schema conformance (the `clean_dataframe` +
`_ensure_schema_conformance` chain of `_process_file_in_batches`). -/
def processChunk (config : List ColumnSpec) (src : String)
    (fuzzy : String → Option ℚ) (now : ℚ) (nrows : Nat) (raw : RawTable) :
    CleanTable :=
  ensureSchemaConformance src now nrows (createTargetSchema config)
    (targetColumnNames config)
    (addMetadata src now nrows
      (transformColumns config src fuzzy nrows
        (removeNullBytes (filterColumns config raw))))

/-! Helper lemmas about the pipeline semantics. -/

theorem filterMap_guard_eq_filter {α β : Type} (l : List α) (p : α → Bool)
    (F : α → Option β) :
    l.filterMap (fun r => if p r then F r else none) = (l.filter p).filterMap F := by
  induction l with
  | nil => rfl
  | cons a t ih =>
    by_cases h : p a <;> simp [List.filter_cons, List.filterMap_cons, h, ih]

theorem twa_eq_filterMap (rows : List GatewayRow) :
    transactionWithAnalysis rows = rows.filterMap (twaStep rows) := by
  unfold transactionWithAnalysis rankedTransactions
  rw [List.filterMap_map]
  rfl

theorem twaStep_gatewayRow (rows : List GatewayRow) (r : GatewayRow) (t : TaRow)
    (h : twaStep rows r = some t) : t.toGatewayRow = r := by
  unfold twaStep at h
  by_cases hg : notMergedAuth (rankRow rows r) && successFilter (rankRow rows r)
  · rw [if_pos hg] at h
    cases h
    rfl
  · rw [if_neg hg] at h
    cases h

theorem mem_twa_invariant (rows : List GatewayRow) (t : TaRow)
    (h : t ∈ transactionWithAnalysis rows) :
    t.transaction_outcome = "Success" ∧ notMergedAuth t.toRankedRow = true := by
  rw [twa_eq_filterMap] at h
  obtain ⟨r, _, hstep⟩ := List.mem_filterMap.mp h
  unfold twaStep at hstep
  by_cases hg : notMergedAuth (rankRow rows r) && successFilter (rankRow rows r)
  · rw [if_pos hg] at hstep
    cases hstep
    obtain ⟨h1, h2⟩ := (Bool.and_eq_true _ _).mp hg
    refine ⟨?_, h1⟩
    unfold successFilter at h2
    unfold toTaRow
    by_cases hs : successCase (rankRow rows r) == "Success"
    · simp [hs]
    · rw [Bool.not_eq_true] at hs
      rw [hs] at h2
      simp at h2
  · rw [if_neg hg] at hstep
    cases hstep

theorem mem_viewRows_fst (ts : List TaRow) (bs : List BankRow)
    (p : TaRow × Option BankRow) (h : p ∈ reconciliationViewRows ts bs) :
    p.1 ∈ ts := by
  unfold reconciliationViewRows at h
  obtain ⟨ta, hta, hp⟩ := List.mem_flatMap.mp h
  cases hf : bs.filter (bankJoinPred ta) with
  | nil =>
    rw [hf] at hp
    simp only [List.mem_singleton] at hp
    rw [hp]
    exact hta
  | cons b rest =>
    rw [hf] at hp
    obtain ⟨b', _, hpe⟩ := List.mem_map.mp hp
    rw [← hpe]
    exact hta

theorem validated_subset (va l : List String) :
    ∀ a ∈ validatedSelectAliases va l, a ∈ va := by
  induction l with
  | nil => intro a ha; cases ha
  | cons x rest ih =>
    intro a ha
    unfold validatedSelectAliases at ha
    by_cases hx : x ∈ va
    · rw [if_pos hx] at ha
      rcases List.mem_cons.mp ha with h | h
      · rw [h]; exact hx
      · exact ih a h
    · rw [if_neg hx] at ha
      cases hm : lookupStr fieldAliasMapping x with
      | none => rw [hm] at ha; exact ih a ha
      | some m =>
        rw [hm] at ha
        dsimp only at ha
        by_cases hmv : m ∈ va
        · rw [if_pos hmv] at ha
          rcases List.mem_cons.mp ha with h | h
          · rw [h]; exact hmv
          · exact ih a h
        · rw [if_neg hmv] at ha; exact ih a ha

theorem mem_validated (va l : List String) (a : String) (hl : a ∈ l) (hv : a ∈ va) :
    a ∈ validatedSelectAliases va l := by
  induction l with
  | nil => cases hl
  | cons x rest ih =>
    unfold validatedSelectAliases
    rcases List.mem_cons.mp hl with h | h
    · subst h
      rw [if_pos hv]
      exact List.mem_cons_self _ _
    · by_cases hx : x ∈ va
      · rw [if_pos hx]; exact List.mem_cons_of_mem _ (ih h)
      · rw [if_neg hx]
        cases hm : lookupStr fieldAliasMapping x with
        | none => exact ih h
        | some m =>
          dsimp only
          by_cases hmv : m ∈ va
          · rw [if_pos hmv]; exact List.mem_cons_of_mem _ (ih h)
          · rw [if_neg hmv]; exact ih h

theorem mem_insertSorted (x a : String) (l : List String) (h : a ∈ l ∨ a = x) :
    a ∈ insertSorted x l := by
  induction l with
  | nil =>
    rcases h with h | h
    · cases h
    · rw [h]; exact List.mem_singleton.mpr rfl
  | cons y rest ih =>
    unfold insertSorted
    by_cases hlt : x < y
    · rw [if_pos hlt]
      rcases h with h | h
      · exact List.mem_cons_of_mem _ h
      · rw [h]; exact List.mem_cons_self _ _
    · rw [if_neg hlt]
      rcases h with h | h
      · rcases List.mem_cons.mp h with h' | h'
        · rw [h']; exact List.mem_cons_self _ _
        · exact List.mem_cons_of_mem _ (ih (Or.inl h'))
      · exact List.mem_cons_of_mem _ (ih (Or.inr h))

theorem mem_sortStrs (a : String) (l : List String) (h : a ∈ l) :
    a ∈ sortStrs l := by
  induction l with
  | nil => cases h
  | cons x rest ih =>
    show a ∈ insertSorted x (sortStrs rest)
    rcases List.mem_cons.mp h with h' | h'
    · exact mem_insertSorted x a _ (Or.inr h')
    · exact mem_insertSorted x a _ (Or.inl (ih h'))

theorem mem_viewQueryParts_of_rankedTa (x : String) (h : x ∈ rankedTaLines)
    (includeRecon : Bool) (df : Option DateFilter) :
    x ∈ viewQueryParts includeRecon df := by
  unfold viewQueryParts
  simp only [List.append_assoc, List.mem_append]
  exact Or.inr (Or.inr (Or.inr (Or.inr (Or.inl h))))

theorem bankMatchType_eq_tightest (ta : TaRow) (b : BankRow) :
    bankMatchType ta b = tightestTierLabel ta b := by
  have hauth : ∀ (x : Option String) (r : Bool),
      (b.authorization_code.isSome && (sqlEq x b.authorization_code && r))
        = (sqlEq x b.authorization_code && r) := by
    intro x r
    cases b.authorization_code <;> cases x <;> simp [sqlEq]
  have hrrn : ∀ (x : Option String) (r : Bool),
      (b.rrn.isSome && (sqlEq x b.rrn && r)) = (sqlEq x b.rrn && r) := by
    intro x r
    cases b.rrn <;> cases x <;> simp [sqlEq]
  simp only [bankMatchType, tightestTierLabel, joinTier1, joinTier2, joinTier3,
    joinTier4, joinTier5, joinTier6, joinTier7, Bool.and_assoc, hauth, hrrn]

theorem twa_group_eq (rows : List GatewayRow) (oid : Option Int) (tid : Option String) :
    (transactionWithAnalysis rows).filter
        (fun t => groupKey t.toGatewayRow == (oid, tid))
      = (rows.filter (fun x => groupKey x == (oid, tid))).filterMap (twaStep rows) := by
  rw [twa_eq_filterMap, List.filter_filterMap, ← filterMap_guard_eq_filter]
  congr 1
  funext r
  unfold twaStep
  by_cases hg : notMergedAuth (rankRow rows r) && successFilter (rankRow rows r)
  · rw [if_pos hg]
    simp only [Option.filter_some]
    rfl
  · rw [if_neg hg]
    simp only [Option.filter_none]
    split <;> rfl

theorem twa_auth_capture_core (rows : List GatewayRow) (auth capt : GatewayRow)
    (oid : Option Int) (tid : Option String) (a1 c1 : String)
    (hgrp : rows.filter (fun x => groupKey x == (oid, tid)) = [auth, capt] ∨
            rows.filter (fun x => groupKey x == (oid, tid)) = [capt, auth])
    (hauth : auth.is_auth = true)
    (hcaptA : capt.is_auth = false) (hcaptC : capt.is_capture = true)
    (hcaptR : capt.is_refund = false) (hcaptV : capt.is_void = false)
    (hcancel : sqlEq (sqlUpper capt.status) (some "CANCEL") = false)
    (hsucc : capt.response_code = some "10000" ∨
             sqlEq (sqlUpper capt.status) (some "APPROVED") = true)
    (harrn : auth.rrn = some a1) (hacode : auth.authorization_code = some c1) :
    (transactionWithAnalysis rows).filter
        (fun t => groupKey t.toGatewayRow == (oid, tid))
      = [toTaRow (rankRow rows capt)]
    ∧ (toTaRow (rankRow rows capt)).toGatewayRow = capt
    ∧ (toTaRow (rankRow rows capt)).final_rrn = some a1
    ∧ (toTaRow (rankRow rows capt)).final_authorization_code = some c1
    ∧ twaStep rows auth = none := by
  have hamem : auth ∈ rows.filter (fun x => groupKey x == (oid, tid)) := by
    rcases hgrp with h | h <;> rw [h] <;> simp
  have hcmem : capt ∈ rows.filter (fun x => groupKey x == (oid, tid)) := by
    rcases hgrp with h | h <;> rw [h] <;> simp
  have hka : groupKey auth = (oid, tid) := beq_iff_eq.mp (List.mem_filter.mp hamem).2
  have hkc : groupKey capt = (oid, tid) := beq_iff_eq.mp (List.mem_filter.mp hcmem).2
  have hGa : rows.filter (fun x => groupKey x == groupKey auth)
      = rows.filter (fun x => groupKey x == (oid, tid)) := by rw [hka]
  have hGc : rows.filter (fun x => groupKey x == groupKey capt)
      = rows.filter (fun x => groupKey x == (oid, tid)) := by rw [hkc]
  have hanyAuth : (rows.filter (fun x => groupKey x == (oid, tid))).any (·.is_auth) = true := by
    rcases hgrp with h | h <;> rw [h] <;> simp [hauth]
  have hanyCapt : (rows.filter (fun x => groupKey x == (oid, tid))).any (·.is_capture) = true := by
    rcases hgrp with h | h <;> rw [h] <;> simp [hcaptC]
  have hauthOnly : (rows.filter (fun x => groupKey x == (oid, tid))).filter (·.is_auth)
      = [auth] := by
    rcases hgrp with h | h <;> rw [h] <;>
      simp [List.filter_cons, hauth, hcaptA]
  have hrankCapt : rankRow rows capt =
      { toGatewayRow := capt
        has_auth_in_group := 1
        has_capture_in_group := 1
        auth_rrn_in_group := some a1
        auth_authorization_code_in_group := some c1 } := by
    unfold rankRow
    rw [hGc]
    simp [hanyAuth, hanyCapt, hauthOnly, sqlMaxStr, harrn, hacode]
  have hrankAuthFlags : (rankRow rows auth).has_auth_in_group = 1
      ∧ (rankRow rows auth).has_capture_in_group = 1 := by
    unfold rankRow
    rw [hGa]
    simp [hanyAuth, hanyCapt]
  have stepAuth : twaStep rows auth = none := by
    have hnm : notMergedAuth (rankRow rows auth) = false := by
      unfold notMergedAuth
      have h1 : (rankRow rows auth).is_auth = true := hauth
      rw [h1, hrankAuthFlags.1, hrankAuthFlags.2]
      rfl
    simp [twaStep, hnm]
  have hguardC : (notMergedAuth (rankRow rows capt)
      && successFilter (rankRow rows capt)) = true := by
    rw [hrankCapt]
    have hnm : notMergedAuth
        { toGatewayRow := capt, has_auth_in_group := 1, has_capture_in_group := 1,
          auth_rrn_in_group := some a1,
          auth_authorization_code_in_group := some c1 } = true := by
      unfold notMergedAuth
      simp [hcaptA]
    rw [hnm]
    have hsc : successCase
        { toGatewayRow := capt, has_auth_in_group := 1, has_capture_in_group := 1,
          auth_rrn_in_group := some a1,
          auth_authorization_code_in_group := some c1 } = "Success" := by
      unfold successCase code10000 statusIs
      have h10 : sqlEq (some "10000") (some "10000") = true := by decide
      rcases hsucc with h | h <;>
        simp [hcaptR, hcaptV, hcancel, hcaptC, h, h10]
    unfold successFilter
    rw [hsc]
    rfl
  have stepCapt : twaStep rows capt = some (toTaRow (rankRow rows capt)) := by
    simp [twaStep, hguardC]
  refine ⟨?_, rfl, ?_, ?_, stepAuth⟩
  · rw [twa_group_eq]
    rcases hgrp with h | h <;> rw [h] <;>
      simp [List.filterMap_cons, stepAuth, stepCapt]
  · rw [hrankCapt]
    unfold toTaRow finalRrn
    simp [hcaptC]
  · rw [hrankCapt]
    unfold toTaRow finalAuthorizationCode
    simp [hcaptC]

/-! Claim theorems about the pipeline semantics. -/

/-- C1 (amended).  For a (gateway_order_id, gateway_transaction_id) group
consisting of exactly one authorization row (rrn = A1, authorization_code =
C1) and one capture row (rrn and authorization_code NULL), where the
capture row's lifecycle flags are exactly `is_capture` and it classifies as
Success (response_code '10000' or status 'APPROVED', and not status
'CANCEL'), the `transaction_with_analysis` stage outputs exactly one row
for the group — the capture row — with final_rrn = A1 and
final_authorization_code = C1, and the authorization row is absent from
the stage's entire output. -/
theorem C1_auth_capture_merge (rows : List GatewayRow) (auth capt : GatewayRow)
    (oid : Option Int) (tid : Option String) (a1 c1 : String)
    (hgrp : rows.filter (fun x => groupKey x == (oid, tid)) = [auth, capt] ∨
            rows.filter (fun x => groupKey x == (oid, tid)) = [capt, auth])
    (hauth : auth.is_auth = true)
    (hcaptA : capt.is_auth = false) (hcaptC : capt.is_capture = true)
    (hcaptR : capt.is_refund = false) (hcaptV : capt.is_void = false)
    (hcancel : sqlEq (sqlUpper capt.status) (some "CANCEL") = false)
    (hsucc : capt.response_code = some "10000" ∨
             sqlEq (sqlUpper capt.status) (some "APPROVED") = true)
    (harrn : auth.rrn = some a1) (hacode : auth.authorization_code = some c1) :
    ((transactionWithAnalysis rows).filter
        (fun t => groupKey t.toGatewayRow == (oid, tid))).map (fun t => t.toGatewayRow)
      = [capt]
    ∧ (∀ t ∈ (transactionWithAnalysis rows).filter
          (fun t => groupKey t.toGatewayRow == (oid, tid)),
        t.final_rrn = some a1 ∧ t.final_authorization_code = some c1)
    ∧ (∀ t ∈ transactionWithAnalysis rows, t.toGatewayRow ≠ auth) := by
  obtain ⟨hout, hgw, hrrn2, hcode2, hstepA⟩ :=
    twa_auth_capture_core rows auth capt oid tid a1 c1 hgrp hauth hcaptA hcaptC
      hcaptR hcaptV hcancel hsucc harrn hacode
  refine ⟨?_, ?_, ?_⟩
  · rw [hout]
    simp [hgw]
  · intro t ht
    rw [hout] at ht
    simp only [List.mem_singleton] at ht
    subst ht
    exact ⟨hrrn2, hcode2⟩
  · intro t ht heq
    rw [twa_eq_filterMap] at ht
    obtain ⟨r, _, hstep⟩ := List.mem_filterMap.mp ht
    have hgr : t.toGatewayRow = r := twaStep_gatewayRow rows r t hstep
    have hr : r = auth := by rw [← hgr, heq]
    rw [hr, hstepA] at hstep
    cases hstep

/-- Authorization row for the C1 counterexample: a successful auth. -/
def c1CexAuth : GatewayRow :=
  { gateway_order_id := some 1001, gateway_transaction_id := some "T1"
    amount := none, status := some "Authorisation", transaction_date := none
    authorization_code := some "C1", rrn := some "A1"
    response_code := some "10000"
    is_auth := true, is_capture := false, is_refund := false, is_void := false }

/-- Capture row for the C1 counterexample: a *failed* capture (declined
response code, no APPROVED status) with NULL rrn / authorization_code. -/
def c1CexCapture : GatewayRow :=
  { gateway_order_id := some 1001, gateway_transaction_id := some "T1"
    amount := none, status := some "Capture Declined", transaction_date := none
    authorization_code := none, rrn := none
    response_code := some "20005"
    is_auth := false, is_capture := true, is_refund := false, is_void := false }

/-- C1 counterexample.  A group satisfying all of the claim's hypotheses
(exactly one auth row with rrn = A1, code = C1, and one capture row with
NULL rrn/code, same ids) for which `transaction_with_analysis` outputs NO
row at all — the success-only filter also removed the failed capture — so
the output is not "exactly one row (the capture)" as claimed. -/
theorem C1_counterexample :
    ([c1CexAuth, c1CexCapture].filter
        (fun x => groupKey x == (some 1001, some "T1")) = [c1CexAuth, c1CexCapture])
    ∧ c1CexAuth.is_auth = true ∧ c1CexAuth.is_capture = false
    ∧ c1CexAuth.rrn = some "A1" ∧ c1CexAuth.authorization_code = some "C1"
    ∧ c1CexCapture.is_capture = true ∧ c1CexCapture.is_auth = false
    ∧ c1CexCapture.rrn = none ∧ c1CexCapture.authorization_code = none
    ∧ transactionWithAnalysis [c1CexAuth, c1CexCapture] = [] := by
  decide

/-- Successful capture row for the C1 witness. -/
def c1WitCapture : GatewayRow :=
  { gateway_order_id := some 1001, gateway_transaction_id := some "T1"
    amount := none, status := some "Capture", transaction_date := none
    authorization_code := none, rrn := none
    response_code := some "10000"
    is_auth := false, is_capture := true, is_refund := false, is_void := false }

/-- C1 witness: the amended theorem applied to a concrete successful
auth/capture pair. -/
theorem C1_auth_capture_merge_witness :
    ((transactionWithAnalysis [c1CexAuth, c1WitCapture]).filter
        (fun t => groupKey t.toGatewayRow == (some 1001, some "T1"))).map
        (fun t => t.toGatewayRow)
      = [c1WitCapture] :=
  (C1_auth_capture_merge [c1CexAuth, c1WitCapture] c1CexAuth c1WitCapture
    (some 1001) (some "T1") "A1" "C1" (Or.inl (by decide)) (by decide) (by decide)
    (by decide) (by decide) (by decide) (by decide) (Or.inl (by decide))
    (by decide) (by decide)).1

/-- C3.  The `bank_match_type` CASE lists the seven tier predicates in the
same order as the OR'd LEFT JOIN predicate, so for every (gateway row,
bank row) pair the label is exactly that of the tightest (earliest-listed)
join tier whose predicate holds (NULL when none holds); in particular a
pair matching the exact auth-code + RRN + amount tier is labeled with the
exact-tier label. -/
theorem C3_bank_match_tier_precedence (ta : TaRow) (b : BankRow) :
    bankMatchType ta b = tightestTierLabel ta b
    ∧ (joinTier1 ta b = true → bankMatchType ta b = some labelTier1) := by
  refine ⟨bankMatchType_eq_tightest ta b, fun h1 => ?_⟩
  rw [bankMatchType_eq_tightest]
  unfold tightestTierLabel
  rw [if_pos h1]

/-- A concrete `transaction_with_analysis` row for the C3 witness. -/
def c3WitTa : TaRow :=
  { gateway_order_id := some 1001, gateway_transaction_id := some "T1"
    amount := some 100, status := some "Capture", transaction_date := some 20000
    authorization_code := some "C1", rrn := some "A1"
    response_code := some "10000"
    is_auth := false, is_capture := true, is_refund := false, is_void := false
    has_auth_in_group := 0, has_capture_in_group := 1
    auth_rrn_in_group := none, auth_authorization_code_in_group := none
    final_rrn := some "A1", final_authorization_code := some "C1"
    transaction_analysis := some "Capture Successful (auth_less)"
    transaction_outcome := "Success" }

/-- A bank row matching `c3WitTa` on the exact tier. -/
def c3WitBank : BankRow :=
  { authorization_code := some "C1", rrn := some "A1"
    transaction_amount := some 100, transaction_date := some 20000 }

/-- C3 witness: the theorem applied to a concrete exact-tier pair. -/
theorem C3_bank_match_tier_precedence_witness :
    bankMatchType c3WitTa c3WitBank = some labelTier1 :=
  (C3_bank_match_tier_precedence c3WitTa c3WitBank).2 (by
    simp [joinTier1, c3WitTa, c3WitBank, sqlEq, amountWithin])

/-- C10.  The tier-(d) branch (auth-code + same day + amount within 0.01)
of the `bank_match_type` CASE is unreachable because tier (c) subsumes it,
and likewise tier (g) is subsumed by tier (f): the two same-day labels are
never produced, for any pair of rows. -/
theorem C10_same_day_labels_unreachable (ta : TaRow) (b : BankRow) :
    bankMatchType ta b ≠ some labelTier4 ∧ bankMatchType ta b ≠ some labelTier7 := by
  have h34 : joinTier4 ta b = true → joinTier3 ta b = true := by
    simp only [joinTier3, joinTier4, Bool.and_eq_true]
    intro h
    exact ⟨h.1.1, h.2⟩
  have h67 : joinTier7 ta b = true → joinTier6 ta b = true := by
    simp only [joinTier6, joinTier7, Bool.and_eq_true]
    intro h
    exact ⟨h.1.1, h.2⟩
  constructor <;>
  · rw [bankMatchType_eq_tightest]
    unfold tightestTierLabel
    intro hc
    split_ifs at hc with h1 h2 h3 h4 h5 h6 h7 <;>
      first
        | exact absurd (h34 h4) h3
        | exact absurd (h67 h7) h6
        | exact absurd hc (by decide)

/-- C10 witness: the unreachability statement applied at a concrete pair. -/
theorem C10_same_day_labels_unreachable_witness :
    bankMatchType c3WitTa c3WitBank ≠ some labelTier4 :=
  (C10_same_day_labels_unreachable c3WitTa c3WitBank).1

/-- C2.  Success-only invariant: every row `transaction_with_analysis`
produces has transaction_outcome = 'Success' and is not an authorization
row merged into a paired capture; hence every row the reconciliation view
exposes carries outcome 'Success'; and for every combination of generator
arguments both `WHERE` conjuncts (merged-auth removal and the Success
filter) are lines of the generated view definition — the filter is applied
unconditionally. -/
theorem C2_view_success_only :
    (∀ (rows : List GatewayRow) (t : TaRow), t ∈ transactionWithAnalysis rows →
        t.transaction_outcome = "Success" ∧ notMergedAuth t.toRankedRow = true)
    ∧ (∀ (rows : List GatewayRow) (banks : List BankRow) (p : TaRow × Option BankRow),
        p ∈ reconciliationViewRows (transactionWithAnalysis rows) banks →
        p.1.transaction_outcome = "Success")
    ∧ (∀ (includeRecon : Bool) (df : Option DateFilter),
        mergedAuthFilterLine ∈ viewQueryParts includeRecon df
        ∧ successFilterLine ∈ viewQueryParts includeRecon df) := by
  refine ⟨fun rows t ht => mem_twa_invariant rows t ht, ?_, ?_⟩
  · intro rows banks p hp
    exact (mem_twa_invariant rows p.1
      (mem_viewRows_fst (transactionWithAnalysis rows) banks p hp)).1
  · intro includeRecon df
    constructor
    · refine mem_viewQueryParts_of_rankedTa _ ?_ includeRecon df
      simp [rankedTaLines]
    · refine mem_viewQueryParts_of_rankedTa _ ?_ includeRecon df
      simp [rankedTaLines]

/-- C2 witness: the invariant applied to a concrete one-row input. -/
theorem C2_view_success_only_witness :
    (toTaRow (rankRow [c1WitCapture] c1WitCapture)).transaction_outcome = "Success"
    ∧ notMergedAuth (toTaRow (rankRow [c1WitCapture] c1WitCapture)).toRankedRow = true :=
  C2_view_success_only.1 [c1WitCapture] (toTaRow (rankRow [c1WitCapture] c1WitCapture))
    (by decide)

set_option maxRecDepth 100000 in
/-- C5.  Field-validation fail-soft: the embedding of query generation is a
total function (it cannot raise), every alias of the validated final
SELECT column list is an alias the view actually defines — so a requested
name resolvable neither directly nor through the static alias map never
appears — and an empty selected-fields mapping still projects (at least)
the five default fields. -/
theorem C5_field_validation_fail_soft (selected : List (String × List String))
    (includeRecon : Bool) :
    (∀ a ∈ validatedSelectAliases
        (extractViewFieldAliases (viewQueryParts includeRecon none))
        (sortStrs (processedSelectedFields includeRecon selected)),
      a ∈ extractViewFieldAliases (viewQueryParts includeRecon none))
    ∧ (selected = [] → ∀ d ∈ defaultFieldsList,
        d ∈ validatedSelectAliases
          (extractViewFieldAliases (viewQueryParts includeRecon none))
          (sortStrs (processedSelectedFields includeRecon selected))) := by
  constructor
  · exact validated_subset _ _
  · intro hsel d hd
    subst hsel
    cases includeRecon <;>
    · exact mem_validated _ _ d (mem_sortStrs _ _ (by fin_cases hd <;> decide))
        (by fin_cases hd <;> decide)

/-- C5 witness: with no fields selected and reconciliation on, the default
field `gateway_order_id` is in the validated final SELECT list. -/
theorem C5_field_validation_fail_soft_witness :
    "gateway_order_id" ∈ validatedSelectAliases
        (extractViewFieldAliases (viewQueryParts true none))
        (sortStrs (processedSelectedFields true [])) :=
  (C5_field_validation_fail_soft [] true).2 rfl "gateway_order_id" (by decide)

theorem tryDateFormats_eq_none (fmts : List String) (s : String)
    (h : ∀ f ∈ fmts, strptimeDateValue f s = none) :
    tryDateFormats fmts s = none := by
  induction fmts with
  | nil => rfl
  | cons f rest ih =>
    unfold tryDateFormats
    rw [h f (List.mem_cons_self f rest)]
    exact ih (fun g hg => h g (List.mem_cons_of_mem f hg))

theorem sourceFormatsFor_subset (src f : String) (hf : f ∈ sourceFormatsFor src) :
    f ∈ allUsedDateFormats := by
  unfold sourceFormatsFor at hf
  split_ifs at hf <;> fin_cases hf <;> decide

theorem genericFormats_subset (f : String) (hf : f ∈ genericDateFormats) :
    f ∈ allUsedDateFormats := by
  fin_cases hf <;> decide

theorem dateClean_token_none (src : String) (fuzzy : String → Option ℚ) (s : String)
    (hfuz : fuzzy s = none)
    (hall : ∀ f ∈ allUsedDateFormats, strptimeDateValue f s = none)
    (hser : serialMatch s = false) :
    dateCleanCell src fuzzy (some s) = none := by
  unfold dateCleanCell
  dsimp only
  by_cases hn : isNullStringTok s
  · rw [if_pos hn]
  · rw [if_neg hn, if_neg (by simp [hser]),
      tryDateFormats_eq_none _ _ (fun f hf => hall f (sourceFormatsFor_subset src f hf)),
      tryDateFormats_eq_none _ _ (fun f hf => hall f (genericFormats_subset f hf))]
    exact hfuz

/-- C6 (amended).  Null-token preservation holds for the integer, float,
date, time, boolean and uuid cleaners: every case variant of the
recognized null tokens ("", "None", "NaN", "NULL", "<NA>") and every
actual null cleans to null.  The string and text cleaners null only
actual nulls and return string null tokens unchanged as text.  (The date
cleaner's final pandas-inference fallback is the parameter `fuzzy`,
assumed — as `pd.to_datetime(..., errors='coerce')` behaves — not to
parse any null token.) -/
theorem C6_null_token_preservation (src : String) (fuzzy : String → Option ℚ)
    (hfz : ∀ s ∈ nullTokenVariants, fuzzy s = none) :
    (∀ s ∈ nullTokenVariants,
        integerCleanCell (some s) = none
        ∧ floatCleanCell (some s) = none
        ∧ dateCleanCell src fuzzy (some s) = none
        ∧ timeCleanCell (some s) = none
        ∧ booleanCleanCell (some s) = none
        ∧ uuidCleanCell (some s) = none
        ∧ stringCleanCell (some s) = some s
        ∧ textCleanCell (some s) = some s)
    ∧ (integerCleanCell none = none ∧ floatCleanCell none = none
        ∧ dateCleanCell src fuzzy none = none ∧ timeCleanCell none = none
        ∧ booleanCleanCell none = none ∧ uuidCleanCell none = none
        ∧ stringCleanCell none = none ∧ textCleanCell none = none) := by
  refine ⟨?_, rfl, rfl, rfl, rfl, rfl, rfl, rfl, rfl⟩
  intro s hs
  refine ⟨?_, ?_, dateClean_token_none src fuzzy s (hfz s hs) ?_ ?_, ?_, ?_, ?_, ?_, ?_⟩ <;>
    fin_cases hs <;> decide

/-- C6 counterexample.  "None" is a recognized null token, yet the string
cleaner (a cleaner of the registry) returns it unchanged as the non-null
string "None" — it never consults any null-token list, so the claim as
stated (every cleaner maps null tokens to null) is false. -/
theorem C6_counterexample :
    "None" ∈ nullTokenVariants
    ∧ stringCleanCell (some "None") = some "None"
    ∧ textCleanCell (some "None") = some "None" := by
  decide

/-- C6 witness: the amended theorem at a concrete source, fallback parser
and token. -/
theorem C6_null_token_preservation_witness :
    integerCleanCell (some "NULL") = none
    ∧ dateCleanCell "portal" (fun _ => none) (some "NULL") = none :=
  ⟨((C6_null_token_preservation "portal" (fun _ => none)
      (fun _ _ => rfl)).1 "NULL" (by decide)).1,
   ((C6_null_token_preservation "portal" (fun _ => none)
      (fun _ _ => rfl)).1 "NULL" (by decide)).2.2.1⟩

/-- The positive case of a strptime date parse: a successful match within
the Timestamp bounds yields the civil day number plus the day
fraction. -/
theorem strptimeDateValue_eq (fmt s : String) (p : DateParts)
    (hp : strptimeParts fmt s = some p) (v : ℚ)
    (hv : (daysFromCivil p.y p.m p.d : ℚ)
      + ((partsHour24 p * 3600 + p.mi * 60 + p.sec : Nat) : ℚ) / 86400 = v)
    (hb : tsBoundOk v = true) :
    strptimeDateValue fmt s = some v := by
  unfold strptimeDateValue
  rw [hp]
  dsimp only [Option.bind]
  rw [hv, if_pos hb]

/-- C7 (amended).  Excel-serial conversion is bounded by the `Timedelta`
construction: a purely-numeric value whose adjusted day count fits the
signed 64-bit nanosecond payload converts to the 1899-12-30 epoch plus
the serial's day count, reduced by one exactly when the serial exceeds
59; in particular serial 45000 converts with the -1 adjustment and serial
40 without it.  Beyond the bound the per-cell conversion raises, the
error is swallowed, and the value falls through to the strptime/fuzzy
stages (see the counterexample). -/
theorem C7_excel_serial_dates (src : String) (fuzzy : String → Option ℚ)
    (s : String) (hm : serialMatch s = true) (hnt : isNullStringTok s = false)
    (hb : excelSerialInBounds (parseSerialQ s) = true) :
    dateCleanCell src fuzzy (some s)
      = some ((excelEpochDay : ℚ)
          + (if 59 < parseSerialQ s then parseSerialQ s - 1 else parseSerialQ s))
    ∧ dateCleanCell src fuzzy (some "45000") = some ((excelEpochDay : ℚ) + 44999)
    ∧ dateCleanCell src fuzzy (some "40") = some ((excelEpochDay : ℚ) + 40) := by
  have gen : ∀ t, serialMatch t = true → isNullStringTok t = false →
      excelSerialInBounds (parseSerialQ t) = true →
      dateCleanCell src fuzzy (some t)
        = some ((excelEpochDay : ℚ)
            + (if 59 < parseSerialQ t then parseSerialQ t - 1 else parseSerialQ t)) := by
    intro t hmt hnt hbt
    unfold dateCleanCell
    dsimp only
    rw [if_neg (by simp [hnt]), if_pos (by simp [hmt, hbt])]
    rfl
  have hb45 : excelSerialInBounds (parseSerialQ "45000") = true := by
    show excelSerialInBounds ((45000 : ℕ) : ℚ) = true
    simp only [excelSerialInBounds, decide_eq_true_eq]
    rw [if_pos (by norm_num : ((45000 : ℕ) : ℚ) > 59)]
    norm_num
  have hb40 : excelSerialInBounds (parseSerialQ "40") = true := by
    show excelSerialInBounds ((40 : ℕ) : ℚ) = true
    simp only [excelSerialInBounds, decide_eq_true_eq]
    rw [if_neg (by norm_num : ¬ ((40 : ℕ) : ℚ) > 59)]
    norm_num
  refine ⟨gen s hm hnt hb, ?_, ?_⟩
  · rw [gen "45000" (by decide) (by decide) hb45]
    have h1 : parseSerialQ "45000" = 45000 := by
      show ((45000 : ℕ) : ℚ) = 45000
      norm_num
    rw [h1]
    norm_num
  · rw [gen "40" (by decide) (by decide) hb40]
    have h1 : parseSerialQ "40" = 40 := by
      show ((40 : ℕ) : ℚ) = 40
      norm_num
    rw [h1]
    norm_num

/-- C7 counterexample.  The original claim quantifies over every
purely-numeric value, but the serial conversion is bounded: for
"20250101" the adjusted day count 20250100 exceeds the `Timedelta`
payload, the conversion raises and is swallowed, and the value falls
through (past the payfort source format) to the generic `%Y%m%d` format,
cleaning to 2025-01-01 — day 20089 — and not to the epoch plus the
adjusted serial. -/
theorem C7_counterexample :
    serialMatch "20250101" = true
    ∧ dateCleanCell "payfort" (fun _ => none) (some "20250101")
        = some ((20089 : ℚ))
    ∧ (20089 : ℚ) = ((daysFromCivil 2025 1 1 : ℤ) : ℚ)
    ∧ ¬ ((20089 : ℚ) = excelSerialValue (parseSerialQ "20250101")) := by
  have hps : parseSerialQ "20250101" = ((20250101 : ℕ) : ℚ) := rfl
  have hnb : excelSerialInBounds (parseSerialQ "20250101") = false := by
    show excelSerialInBounds ((20250101 : ℕ) : ℚ) = false
    simp only [excelSerialInBounds]
    rw [decide_eq_false_iff_not]
    rw [if_pos (by norm_num : ((20250101 : ℕ) : ℚ) > 59)]
    norm_num
  have hdays : daysFromCivil 2025 1 1 = (20089 : ℤ) := by decide
  have hv : strptimeDateValue "%Y%m%d" "20250101" = some ((20089 : ℚ)) := by
    refine strptimeDateValue_eq "%Y%m%d" "20250101"
      ⟨2025, 1, 1, 0, 0, 0, false, false⟩ rfl 20089 ?_ ?_
    · show (daysFromCivil 2025 1 1 : ℚ)
        + ((partsHour24 ⟨2025, 1, 1, 0, 0, 0, false, false⟩ * 3600
            + 0 * 60 + 0 : Nat) : ℚ) / 86400 = 20089
      rw [hdays]
      norm_num [partsHour24]
    · simp only [tsBoundOk, decide_eq_true_eq]
      constructor <;> norm_num
  have hsrc : tryDateFormats (sourceFormatsFor "payfort") "20250101"
      = (none : Option ℚ) := by decide
  have hgen : tryDateFormats genericDateFormats "20250101"
      = some ((20089 : ℚ)) := by
    simp only [genericDateFormats, tryDateFormats, hv,
      (by decide : strptimeDateValue "%d/%m/%Y" "20250101" = (none : Option ℚ)),
      (by decide : strptimeDateValue "%m/%d/%Y" "20250101" = (none : Option ℚ)),
      (by decide : strptimeDateValue "%Y-%m-%d" "20250101" = (none : Option ℚ)),
      (by decide : strptimeDateValue "%d-%m-%Y" "20250101" = (none : Option ℚ)),
      (by decide : strptimeDateValue "%Y/%m/%d" "20250101" = (none : Option ℚ)),
      (by decide : strptimeDateValue "%d.%m.%Y" "20250101" = (none : Option ℚ)),
      (by decide : strptimeDateValue "%m.%d.%Y" "20250101" = (none : Option ℚ)),
      (by decide : strptimeDateValue "%d %b %Y" "20250101" = (none : Option ℚ)),
      (by decide : strptimeDateValue "%b %d %Y" "20250101" = (none : Option ℚ))]
  refine ⟨by decide, ?_, by rw [hdays]; norm_num, ?_⟩
  · unfold dateCleanCell
    dsimp only
    rw [if_neg (by decide : ¬ isNullStringTok "20250101" = true),
      if_neg (by simp [hnb]), hsrc, hgen]
  · rw [hps]
    unfold excelSerialValue
    rw [if_pos (by norm_num : ((20250101 : ℕ) : ℚ) > 59)]
    have hep : excelEpochDay = (-25569 : ℤ) := by decide
    rw [hep]
    push_cast
    norm_num

/-- C7 witness: the amended theorem at serial 45000, the bound hypothesis
discharged concretely. -/
theorem C7_excel_serial_dates_witness :
    excelSerialInBounds (parseSerialQ "45000") = true
    ∧ dateCleanCell "portal" (fun _ => none) (some "45000")
      = some ((excelEpochDay : ℚ) + 44999) := by
  have hb45 : excelSerialInBounds (parseSerialQ "45000") = true := by
    show excelSerialInBounds ((45000 : ℕ) : ℚ) = true
    simp only [excelSerialInBounds, decide_eq_true_eq]
    rw [if_pos (by norm_num : ((45000 : ℕ) : ℚ) > 59)]
    norm_num
  exact ⟨hb45, (C7_excel_serial_dates "portal" (fun _ => none) "45000"
    (by decide) (by decide) hb45).2.1⟩

theorem processBatchesFrom_spec (post pre : List BatchResult)
    (hpre : ∀ b ∈ pre, b ≠ BatchResult.err) :
    ∀ tr : Nat,
      processBatchesFrom 0 tr (pre ++ BatchResult.err :: post)
        = RunOutcome.abortedRun 1 (tr + rowsOf pre)
      ∧ processBatchesFrom 0 tr pre = RunOutcome.finished 0 (tr + rowsOf pre) := by
  induction pre with
  | nil =>
    intro tr
    constructor
    · simp [processBatchesFrom, rowsOf]
    · simp [processBatchesFrom, rowsOf]
  | cons b rest ih =>
    intro tr
    cases b with
    | ok n =>
      have h := ih (fun x hx => hpre x (List.mem_cons_of_mem _ hx)) (tr + n)
      constructor
      · show processBatchesFrom 0 (tr + n) (rest ++ BatchResult.err :: post) = _
        rw [h.1]
        congr 1
        simp [rowsOf]
        omega
      · show processBatchesFrom 0 (tr + n) rest = _
        rw [h.2]
        congr 1
        simp [rowsOf]
        omega
    | err => exact absurd rfl (hpre _ (List.mem_cons_self _ _))

/-- C9 (amended).  Fail-fast on the FIRST erroring batch, whatever its
index: a run whose first error occurs after any number of successful
batches aborts immediately with error count 1 and the partial output
removed; a run with no erroring batch finishes with error count 0.  (The
per-file counters are reset by `process_file`, so no error count ever
exceeds 1 within one file's run.) -/
theorem C9_batch_error_policy (pre post : List BatchResult)
    (hpre : ∀ b ∈ pre, b ≠ BatchResult.err) :
    processFileBatches (pre ++ BatchResult.err :: post)
      = RunOutcome.abortedRun 1 (rowsOf pre)
    ∧ outputKept (processFileBatches (pre ++ BatchResult.err :: post)) = false
    ∧ processFileBatches pre = RunOutcome.finished 0 (rowsOf pre) := by
  have h := processBatchesFrom_spec post pre hpre 0
  refine ⟨?_, ?_, ?_⟩
  · simpa using h.1
  · show outputKept (processBatchesFrom 0 0 (pre ++ BatchResult.err :: post)) = false
    rw [h.1]
    rfl
  · simpa using h.2

/-- C9 counterexample.  The claim says errors in batches after the first
are collected without aborting the run; but when the FIRST error occurs in
the second batch, the run aborts immediately (error count 1, partial
output removed) instead of continuing. -/
theorem C9_counterexample :
    processFileBatches [BatchResult.ok 5, BatchResult.err]
      = RunOutcome.abortedRun 1 5
    ∧ outputKept (processFileBatches [BatchResult.ok 5, BatchResult.err]) = false := by
  decide

/-- C9 witness: the amended policy at a concrete batch list. -/
theorem C9_batch_error_policy_witness :
    processFileBatches [BatchResult.ok 3, BatchResult.err, BatchResult.ok 9]
      = RunOutcome.abortedRun 1 3 :=
  (C9_batch_error_policy [BatchResult.ok 3] [BatchResult.ok 9]
    (by decide)).1

/-- C8.  Type-override precedence: a column whose canonical name is `rrn`
is always inferred as `string` — `guess_py_type` consults the explicit
override table before any dtype or value sniffing, for every series
(including all-digit ones) and every date parser / sampler — and the
per-source post-pass of `build` re-enforces `string` for `rrn` whatever
type inference produced. -/
theorem C8_rrn_type_override (looksLikeDate : String → Bool)
    (sample : List String → List String) (series : PdSeriesInfo)
    (pyType : String) :
    guessPyType looksLikeDate sample series "rrn" = "string"
    ∧ enforceTypeConsistency "rrn" pyType = "string" :=
  ⟨rfl, rfl⟩


/-! Lemmas for the transformer and schema-conformance embedding. -/

theorem lookupCol_cons (a : String × Column) (df : CleanTable) (n : String) :
    lookupCol (a :: df) n = if a.1 == n then some a.2 else lookupCol df n := by
  by_cases h : a.1 == n <;> simp [lookupCol, List.find?_cons, h]

theorem lookupCol_append_single (df : CleanTable) (m : String) (c : Column)
    (n : String) :
    lookupCol (df ++ [(m, c)]) n =
      match lookupCol df n with
      | some x => some x
      | none => if m == n then some c else none := by
  induction df with
  | nil => simp [lookupCol_cons, lookupCol]
  | cons a df ih =>
    by_cases h : a.1 == n <;> simp [lookupCol_cons, h, ih]

theorem lookupCol_eq_none_of_not_any (df : CleanTable) (n : String)
    (h : ¬ df.any (fun c => c.1 == n) = true) : lookupCol df n = none := by
  have hf : df.find? (fun c => c.1 == n) = none := by
    rw [List.find?_eq_none]
    intro x hx hpx
    exact h (List.any_eq_true.mpr ⟨x, hx, hpx⟩)
  simp [lookupCol, hf]

theorem lookupCol_map_replace_self (df : CleanTable) (m : String) (c : Column)
    (hany : df.any (fun x => x.1 == m) = true) :
    lookupCol (df.map (fun x => if x.1 == m then (m, c) else x)) m = some c := by
  induction df with
  | nil => simp at hany
  | cons a df ih =>
    by_cases h1 : a.1 = m
    · simp [lookupCol_cons, h1]
    · have hany' : df.any (fun x => x.1 == m) = true := by
        simpa [List.any_cons, h1] using hany
      simp only [List.map_cons, lookupCol_cons]
      have h1b : ((if a.1 == m then (m, c) else a).1 == m) = false := by
        simp [h1]
      rw [h1b]
      simpa using ih hany' 

theorem lookupCol_upsert_self (df : CleanTable) (m : String) (c : Column) :
    lookupCol (upsertCol df m c) m = some c := by
  unfold upsertCol
  by_cases h2 : df.any (fun x => x.1 == m) = true
  · rw [if_pos h2]
    exact lookupCol_map_replace_self df m c h2
  · rw [if_neg h2, lookupCol_append_single, lookupCol_eq_none_of_not_any df m h2]
    simp

theorem lookupCol_map_replace_other (df : CleanTable) (m : String) (c : Column)
    (n : String) (h : (m == n) = false) :
    lookupCol (df.map (fun x => if x.1 == m then (m, c) else x)) n
      = lookupCol df n := by
  induction df with
  | nil => rfl
  | cons a df ih =>
    have hmn : m ≠ n := fun he => by simp [he] at h
    simp only [List.map_cons, lookupCol_cons]
    by_cases h1 : a.1 = m
    · have hb1 : ((if a.1 == m then (m, c) else a).1 == n) = false := by
        simp [h1, hmn]
      have hb2 : (a.1 == n) = false := by simp [h1, hmn]
      rw [hb1, hb2]
      simpa using ih
    · have hb1 : (if a.1 == m then (m, c) else a) = a := by simp [h1]
      rw [hb1]
      by_cases h2 : a.1 = n
      · simp [h2]
      · simp only [beq_eq_false_iff_ne.mpr h2, if_false]
        simpa using ih

theorem lookupCol_upsert_other (df : CleanTable) (m : String) (c : Column)
    (n : String) (h : m ≠ n) : lookupCol (upsertCol df m c) n = lookupCol df n := by
  have hb : (m == n) = false := beq_eq_false_iff_ne.mpr h
  unfold upsertCol
  by_cases h2 : df.any (fun x => x.1 == m) = true
  · rw [if_pos h2]
    exact lookupCol_map_replace_other df m c n hb
  · rw [if_neg h2, lookupCol_append_single]
    cases hl : lookupCol df n <;> simp [hb]

theorem lookupCol_isSome_iff (df : CleanTable) (n : String) :
    (lookupCol df n).isSome = true ↔ n ∈ df.map (·.1) := by
  induction df with
  | nil => simp [lookupCol]
  | cons a df ih =>
    by_cases h : a.1 = n
    · simp [lookupCol_cons, h]
    · simp [lookupCol_cons, h, Ne.symm h, ih]

theorem contains_iff_lookupCol (df : CleanTable) (n : String) :
    (df.map (·.1)).contains n = true ↔ (lookupCol df n).isSome = true := by
  rw [lookupCol_isSome_iff]
  simp

theorem conformField_keep_ne (src : String) (now : ℚ) (nrows : Nat)
    (cur : List String) (df : CleanTable) (f : String × ArrowType)
    (n : String) (hfn : f.1 ≠ n) :
    lookupCol (conformField src now nrows cur df f) n = lookupCol df n := by
  cases hb1 : (f.1 == "data_source" || f.1 == "processed_at") with
  | true =>
    cases hb2 : cur.contains f.1 with
    | true =>
      have hm2 : f.1 ∈ cur := by simpa using hb2
      simp [conformField, hb1, hm2]
    | false =>
      have hm2 : f.1 ∉ cur := by simpa using hb2
      cases hb3 : (f.1 == "data_source") with
      | true =>
        have hfe : f.1 = "data_source" := eq_of_beq hb3
        have hne : "data_source" ≠ n := hfe ▸ hfn
        have hm2' : "data_source" ∉ cur := hfe ▸ hm2
        simp [conformField, hfe, hm2', lookupCol_upsert_other _ _ _ _ hne]
      | false =>
        have hfe : f.1 = "processed_at" := by
          rw [hb3] at hb1
          exact eq_of_beq (by simpa using hb1)
        have hne : "processed_at" ≠ n := hfe ▸ hfn
        have hm2' : "processed_at" ∉ cur := hfe ▸ hm2
        simp [conformField, hfe, hm2', lookupCol_upsert_other _ _ _ _ hne]
  | false =>
    cases hb2 : cur.contains f.1 with
    | false =>
      have hm2 : f.1 ∉ cur := by simpa using hb2
      simp [conformField, hb1, hm2, lookupCol_upsert_other _ _ _ _ hfn]
    | true =>
      have hm2 : f.1 ∈ cur := by simpa using hb2
      cases hl : lookupCol df f.1 with
      | none => simp [conformField, hb1, hm2, hl]
      | some col => simp [conformField, hb1, hm2, hl, lookupCol_upsert_other _ _ _ _ hfn]

theorem conformField_keep_meta (src : String) (now : ℚ) (nrows : Nat)
    (cur : List String) (df : CleanTable) (f : String × ArrowType)
    (n : String) (c : Column)
    (hm : n = "data_source" ∨ n = "processed_at")
    (hmem : cur.contains n = true)
    (h : lookupCol df n = some c) :
    lookupCol (conformField src now nrows cur df f) n = some c := by
  by_cases hfn : f.1 = n
  · have hc1 : (f.1 == "data_source" || f.1 == "processed_at") = true := by
      rcases hm with rfl | rfl <;> simp [hfn]
    have hc2 : f.1 ∈ cur := by rw [hfn]; simpa using hmem
    simp [conformField, hc1, hc2, h]
  · rw [conformField_keep_ne src now nrows cur df f n hfn]
    exact h

theorem conformField_isSome_keep (src : String) (now : ℚ) (nrows : Nat)
    (cur : List String) (df : CleanTable) (f : String × ArrowType)
    (n : String) (h : (lookupCol df n).isSome = true) :
    (lookupCol (conformField src now nrows cur df f) n).isSome = true := by
  by_cases hfn : f.1 = n
  · subst hfn
    cases hb1 : (f.1 == "data_source" || f.1 == "processed_at") with
    | true =>
      cases hb2 : cur.contains f.1 with
      | true =>
        have hm2 : f.1 ∈ cur := by simpa using hb2
        simpa [conformField, hb1, hm2] using h
      | false =>
        have hm2 : f.1 ∉ cur := by simpa using hb2
        cases hb3 : (f.1 == "data_source") with
        | true =>
          have hfe : f.1 = "data_source" := eq_of_beq hb3
          have hm2' : "data_source" ∉ cur := hfe ▸ hm2
          simp [conformField, hfe, hm2', lookupCol_upsert_self]
        | false =>
          have hfe : f.1 = "processed_at" := by
            rw [hb3] at hb1
            exact eq_of_beq (by simpa using hb1)
          have hm2' : "processed_at" ∉ cur := hfe ▸ hm2
          simp [conformField, hfe, hm2', lookupCol_upsert_self]
    | false =>
      cases hb2 : cur.contains f.1 with
      | false =>
        have hm2 : f.1 ∉ cur := by simpa using hb2
        simp [conformField, hb1, hm2, lookupCol_upsert_self]
      | true =>
        have hm2 : f.1 ∈ cur := by simpa using hb2
        cases hl : lookupCol df f.1 with
        | none =>
          simp only [conformField, hb1, hm2, hl]
          simp only [hl] at h
          simp at h
        | some col => simp [conformField, hb1, hm2, hl, lookupCol_upsert_self]
  · rw [conformField_keep_ne src now nrows cur df f n hfn]
    exact h

theorem conformField_isSome_self (src : String) (now : ℚ) (nrows : Nat)
    (cur : List String) (df : CleanTable) (f : String × ArrowType)
    (hcur : cur.contains f.1 = true → (lookupCol df f.1).isSome = true) :
    (lookupCol (conformField src now nrows cur df f) f.1).isSome = true := by
  cases hb1 : (f.1 == "data_source" || f.1 == "processed_at") with
  | true =>
    cases hb2 : cur.contains f.1 with
    | true =>
      have hm2 : f.1 ∈ cur := by simpa using hb2
      have := hcur hb2
      simpa [conformField, hb1, hm2] using this
    | false =>
      have hm2 : f.1 ∉ cur := by simpa using hb2
      cases hb3 : (f.1 == "data_source") with
      | true =>
        have hfe : f.1 = "data_source" := eq_of_beq hb3
        have hm2' : "data_source" ∉ cur := hfe ▸ hm2
        simp [conformField, hfe, hm2', lookupCol_upsert_self]
      | false =>
        have hfe : f.1 = "processed_at" := by
          rw [hb3] at hb1
          exact eq_of_beq (by simpa using hb1)
        have hm2' : "processed_at" ∉ cur := hfe ▸ hm2
        simp [conformField, hfe, hm2', lookupCol_upsert_self]
  | false =>
    cases hb2 : cur.contains f.1 with
    | false =>
      have hm2 : f.1 ∉ cur := by simpa using hb2
      simp [conformField, hb1, hm2, lookupCol_upsert_self]
    | true =>
      have hm2 : f.1 ∈ cur := by simpa using hb2
      cases hl : lookupCol df f.1 with
      | none =>
        have := hcur hb2
        rw [hl] at this
        simp at this
      | some col => simp [conformField, hb1, hm2, hl, lookupCol_upsert_self]

theorem conformField_missing_data (src : String) (now : ℚ) (nrows : Nat)
    (cur : List String) (df : CleanTable) (n : String) (ty : ArrowType)
    (hds : (n == "data_source") = false) (hpa : (n == "processed_at") = false)
    (hmem : cur.contains n = false) :
    conformField src now nrows cur df (n, ty)
      = upsertCol df n (nullColumnFor ty nrows) := by
  have hm2 : n ∉ cur := by simpa using hmem
  simp [conformField, hds, hpa, hm2]

theorem foldl_conform_keep (src : String) (now : ℚ) (nrows : Nat)
    (cur : List String) (fields : List (String × ArrowType)) :
    ∀ df : CleanTable, ∀ n : String, ∀ c : Column, lookupCol df n = some c →
    (∀ f ∈ fields, f.1 ≠ n) →
    lookupCol (fields.foldl (conformField src now nrows cur) df) n = some c := by
  induction fields with
  | nil => intro df n c h _; simpa using h
  | cons g rest ih =>
    intro df n c h hne
    simp only [List.foldl_cons]
    refine ih _ n c ?_ (fun f hf => hne f (List.mem_cons_of_mem _ hf))
    rw [conformField_keep_ne src now nrows cur df g n (hne g (List.mem_cons_self _ _))]
    exact h

theorem foldl_conform_none (src : String) (now : ℚ) (nrows : Nat)
    (cur : List String) (fields : List (String × ArrowType)) :
    ∀ df : CleanTable, ∀ n : String, lookupCol df n = none →
    (∀ f ∈ fields, f.1 ≠ n) →
    lookupCol (fields.foldl (conformField src now nrows cur) df) n = none := by
  induction fields with
  | nil => intro df n h _; simpa using h
  | cons g rest ih =>
    intro df n h hne
    simp only [List.foldl_cons]
    refine ih _ n ?_ (fun f hf => hne f (List.mem_cons_of_mem _ hf))
    rw [conformField_keep_ne src now nrows cur df g n (hne g (List.mem_cons_self _ _))]
    exact h

theorem foldl_conform_keep_meta (src : String) (now : ℚ) (nrows : Nat)
    (cur : List String) (fields : List (String × ArrowType)) :
    ∀ df : CleanTable, ∀ n : String, ∀ c : Column,
    (n = "data_source" ∨ n = "processed_at") → cur.contains n = true →
    lookupCol df n = some c →
    lookupCol (fields.foldl (conformField src now nrows cur) df) n = some c := by
  induction fields with
  | nil => intro df n c _ _ h; simpa using h
  | cons g rest ih =>
    intro df n c hm hmem h
    simp only [List.foldl_cons]
    exact ih _ n c hm hmem (conformField_keep_meta src now nrows cur df g n c hm hmem h)

theorem foldl_conform_isSome_keep (src : String) (now : ℚ) (nrows : Nat)
    (cur : List String) (fields : List (String × ArrowType)) :
    ∀ df : CleanTable, ∀ n : String, (lookupCol df n).isSome = true →
    (lookupCol (fields.foldl (conformField src now nrows cur) df) n).isSome = true := by
  induction fields with
  | nil => intro df n h; simpa using h
  | cons g rest ih =>
    intro df n h
    simp only [List.foldl_cons]
    exact ih _ n (conformField_isSome_keep src now nrows cur df g n h)

theorem foldl_conform_isSome (src : String) (now : ℚ) (nrows : Nat)
    (cur : List String) (fields : List (String × ArrowType)) :
    ∀ df : CleanTable,
    (∀ m, cur.contains m = true → (lookupCol df m).isSome = true) →
    ∀ f ∈ fields,
    (lookupCol (fields.foldl (conformField src now nrows cur) df) f.1).isSome = true := by
  induction fields with
  | nil => intro df _ f hf; exact absurd hf (List.not_mem_nil f)
  | cons g rest ih =>
    intro df hcur f hf
    simp only [List.foldl_cons]
    rcases List.mem_cons.mp hf with rfl | hf'
    · exact foldl_conform_isSome_keep src now nrows cur rest _ f.1
        (conformField_isSome_self src now nrows cur df f (fun hc => hcur f.1 hc))
    · exact ih _ (fun m hm => conformField_isSome_keep src now nrows cur df g m (hcur m hm))
        f hf'

theorem lookupCol_reorder (stepped : CleanTable) (names : List String)
    (hnodup : names.Nodup) (n : String) :
    lookupCol (names.filterMap (fun m => (lookupCol stepped m).map (fun c => (m, c)))) n
      = if n ∈ names then lookupCol stepped n else none := by
  induction names with
  | nil => simp [lookupCol]
  | cons m rest ih =>
    obtain ⟨hm, hrest⟩ := List.nodup_cons.mp hnodup
    cases hc : lookupCol stepped m with
    | none =>
      simp only [List.filterMap_cons, hc, Option.map_none']
      rw [ih hrest]
      by_cases hn : n = m
      · subst hn
        simp [hm, hc]
      · simp [List.mem_cons, hn]
    | some c =>
      simp only [List.filterMap_cons, hc, Option.map_some']
      rw [lookupCol_cons]
      by_cases hn : m = n
      · subst hn
        simp [hc]
      · rw [if_neg (by simpa using hn)]
        rw [ih hrest]
        by_cases h2 : n ∈ rest
        · simp [h2, Ne.symm hn]
        · simp [h2, Ne.symm hn]

theorem reorder_names (stepped : CleanTable) (names : List String)
    (h : ∀ m ∈ names, (lookupCol stepped m).isSome = true) :
    (names.filterMap (fun m => (lookupCol stepped m).map (fun c => (m, c)))).map (·.1)
      = names := by
  induction names with
  | nil => simp
  | cons m rest ih =>
    have h1 := h m (List.mem_cons_self m rest)
    cases hc : lookupCol stepped m with
    | none => rw [hc] at h1; simp at h1
    | some c =>
      simp only [List.filterMap_cons, hc, Option.map_some', List.map_cons]
      rw [ih (fun x hx => h x (List.mem_cons_of_mem _ hx))]

theorem transform_fold_none (config : List ColumnSpec) (src : String)
    (fuzzy : String → Option ℚ) (df : RawTable) (n : String) :
    ∀ acc : CleanTable, lookupCol acc n = none →
    (∀ spec ∈ config, spec.map_to = n → lookupRaw df spec.original = none) →
    lookupCol (config.foldl (fun acc spec =>
      match lookupRaw df spec.original with
      | none => acc
      | some cells =>
        match cleanColumnByType spec.py_type src fuzzy cells with
        | .ok col => upsertCol acc spec.map_to col
        | .error _ => upsertCol acc spec.map_to (rawAsColumn cells)) acc) n = none := by
  induction config with
  | nil => intro acc hacc _; simpa using hacc
  | cons spec rest ih =>
    intro acc hacc h
    simp only [List.foldl_cons]
    refine ih _ ?_ (fun s hs hsn => h s (List.mem_cons_of_mem _ hs) hsn)
    cases hr : lookupRaw df spec.original with
    | none => simpa using hacc
    | some cells =>
      by_cases hmn : spec.map_to = n
      · exact absurd (h spec (List.mem_cons_self _ _) hmn) (by simp [hr])
      · cases hcl : cleanColumnByType spec.py_type src fuzzy cells with
        | ok col => simp [hr, hcl, lookupCol_upsert_other _ _ _ _ hmn, hacc]
        | error e => simp [hr, hcl, lookupCol_upsert_other _ _ _ _ hmn, hacc]

theorem transform_lookup_none (config : List ColumnSpec) (src : String)
    (fuzzy : String → Option ℚ) (nrows : Nat) (df : RawTable) (n : String)
    (hn0 : nrows ≠ 0)
    (h : ∀ spec ∈ config, spec.map_to = n → lookupRaw df spec.original = none) :
    lookupCol (transformColumns config src fuzzy nrows df) n = none := by
  unfold transformColumns
  cases hemp : df.isEmpty with
  | true =>
    have hdf : df = [] := by simpa using hemp
    subst hdf
    simp [lookupCol]
  | false =>
    rw [if_neg (by simp [hemp, hn0])]
    exact transform_fold_none config src fuzzy df n [] rfl h

theorem lookupRaw_eq_none (t : RawTable) (n : String)
    (h : ∀ rc ∈ t, rc.1 ≠ n) : lookupRaw t n = none := by
  have hf : t.find? (fun c => c.1 == n) = none := by
    rw [List.find?_eq_none]
    intro x hx hpx
    exact h x hx (by simpa using hpx)
  simp [lookupRaw, hf]

theorem lookupRaw_clean_none (config : List ColumnSpec) (raw : RawTable)
    (n : String) (h : ∀ rc ∈ raw, rc.1 ≠ n) :
    lookupRaw (removeNullBytes (filterColumns config raw)) n = none := by
  apply lookupRaw_eq_none
  intro rc hrc
  simp only [removeNullBytes, List.mem_map] at hrc
  obtain ⟨o, ho, rfl⟩ := hrc
  have ho2 : o ∈ raw := List.mem_of_mem_filter ho
  exact h o ho2

theorem addMetadata_processed_at (src : String) (now : ℚ) (nrows : Nat)
    (df : CleanTable) :
    lookupCol (addMetadata src now nrows df) "processed_at"
      = some ⟨.datetimeD, List.replicate nrows (some (.ts now))⟩ :=
  lookupCol_upsert_self _ _ _

theorem addMetadata_data_source (src : String) (now : ℚ) (nrows : Nat)
    (df : CleanTable) :
    lookupCol (addMetadata src now nrows df) "data_source"
      = some ⟨.objectD, List.replicate nrows (some (.s src))⟩ := by
  unfold addMetadata
  rw [lookupCol_upsert_other _ _ _ _ (by decide), lookupCol_upsert_self]

theorem addMetadata_keep (src : String) (now : ℚ) (nrows : Nat)
    (df : CleanTable) (n : String)
    (h1 : "data_source" ≠ n) (h2 : "processed_at" ≠ n) :
    lookupCol (addMetadata src now nrows df) n = lookupCol df n := by
  unfold addMetadata
  rw [lookupCol_upsert_other _ _ _ _ h2, lookupCol_upsert_other _ _ _ _ h1]

theorem targetColumnNames_eq (config : List ColumnSpec) :
    targetColumnNames config
      = config.map (·.map_to) ++ ["data_source", "processed_at"] := by
  simp [targetColumnNames, createTargetSchema]

theorem targetColumnNames_nodup (config : List ColumnSpec)
    (hnodup : (config.map (·.map_to)).Nodup)
    (hds : "data_source" ∉ config.map (·.map_to))
    (hpa : "processed_at" ∉ config.map (·.map_to)) :
    (targetColumnNames config).Nodup := by
  rw [targetColumnNames_eq]
  refine List.Nodup.append hnodup (by decide) ?_
  intro a ha hb
  have : a = "data_source" ∨ a = "processed_at" := by simpa using hb
  rcases this with rfl | rfl
  · exact hds ha
  · exact hpa ha

/-- C4: Transformer output-schema guarantee.  For every column config
(with pairwise-distinct canonical names that avoid the metadata names),
source id, raw table and positive row count, the normalized batch produced
by filtering, null-byte stripping, per-column cleaning, metadata addition
and schema conformance has column names exactly the target schema's names
in the target schema's order; every configured column whose original
header is absent from the raw input comes out as the typed all-null
back-fill column; `data_source` is the constant source id column; and
`processed_at` is the constant processing-timestamp column. -/
theorem C4_transformer_schema (config : List ColumnSpec) (src : String)
    (fuzzy : String → Option ℚ) (now : ℚ) (raw : RawTable) (nrows : Nat)
    (hnodup : (config.map (·.map_to)).Nodup)
    (hds : "data_source" ∉ config.map (·.map_to))
    (hpa : "processed_at" ∉ config.map (·.map_to))
    (hn : 0 < nrows) :
    (processChunk config src fuzzy now nrows raw).map (·.1) = targetColumnNames config
    ∧ (∀ spec ∈ config, (∀ rc ∈ raw, rc.1 ≠ spec.original) →
        lookupCol (processChunk config src fuzzy now nrows raw) spec.map_to
          = some (nullColumnFor (arrowTypeOf spec.py_type) nrows))
    ∧ lookupCol (processChunk config src fuzzy now nrows raw) "data_source"
        = some ⟨.objectD, List.replicate nrows (some (.s src))⟩
    ∧ lookupCol (processChunk config src fuzzy now nrows raw) "processed_at"
        = some ⟨.datetimeD, List.replicate nrows (some (.ts now))⟩ := by
  have hn0 : nrows ≠ 0 := Nat.pos_iff_ne_zero.mp hn
  have hndsN : ∀ spec ∈ config, spec.map_to ≠ "data_source" := fun spec hs he =>
    hds (he ▸ List.mem_map_of_mem (·.map_to) hs)
  have hnpaN : ∀ spec ∈ config, spec.map_to ≠ "processed_at" := fun spec hs he =>
    hpa (he ▸ List.mem_map_of_mem (·.map_to) hs)
  set df1 := removeNullBytes (filterColumns config raw) with hdf1
  set df0 := addMetadata src now nrows (transformColumns config src fuzzy nrows df1)
    with hdf0
  set cur := df0.map (·.1) with hcurdef
  set schema := createTargetSchema config with hschemadef
  set stepped := schema.foldl (conformField src now nrows cur) df0 with hsteppeddef
  have hproc : processChunk config src fuzzy now nrows raw
      = (targetColumnNames config).filterMap
          (fun n => (lookupCol stepped n).map (fun c => (n, c))) := rfl
  have hnodupNames : (targetColumnNames config).Nodup :=
    targetColumnNames_nodup config hnodup hds hpa
  have hcurSome : ∀ m, cur.contains m = true → (lookupCol df0 m).isSome = true := by
    intro m hm
    exact (contains_iff_lookupCol df0 m).mp hm
  refine ⟨?_, ?_, ?_, ?_⟩
  · rw [hproc]
    apply reorder_names
    intro m hm
    have hm' : m ∈ schema.map (·.1) := hm
    obtain ⟨f, hf, hfm⟩ := List.mem_map.mp hm'
    rw [← hfm]
    exact foldl_conform_isSome src now nrows cur schema df0 hcurSome f hf
  · intro spec hspec hmiss
    have hnds : spec.map_to ≠ "data_source" := hndsN spec hspec
    have hnpa : spec.map_to ≠ "processed_at" := hnpaN spec hspec
    have h0 : lookupCol df0 spec.map_to = none := by
      rw [hdf0, addMetadata_keep _ _ _ _ _ (Ne.symm hnds) (Ne.symm hnpa)]
      apply transform_lookup_none config src fuzzy nrows df1 spec.map_to hn0
      intro s hs hsn
      have hse : s = spec := List.inj_on_of_nodup_map hnodup hs hspec (by rw [hsn])
      subst hse
      rw [hdf1]
      exact lookupRaw_clean_none config raw s.original hmiss
    have hfield : (spec.map_to, arrowTypeOf spec.py_type) ∈ schema := by
      rw [hschemadef]
      exact List.mem_append_left _ (List.mem_map_of_mem _ hspec)
    obtain ⟨s1, s2, hsplit⟩ := List.append_of_mem hfield
    have hnodupS :
        ((s1 ++ (spec.map_to, arrowTypeOf spec.py_type) :: s2).map (·.1)).Nodup := by
      rw [← hsplit]
      exact hnodupNames
    simp only [List.map_append, List.map_cons] at hnodupS
    obtain ⟨hnd1, hnd2, hdisj⟩ := List.nodup_append.mp hnodupS
    have hn_s2 : spec.map_to ∉ s2.map (·.1) := (List.nodup_cons.mp hnd2).1
    have hn_s1 : spec.map_to ∉ s1.map (·.1) := fun hmem =>
      hdisj hmem (List.mem_cons_self _ _)
    have hcontains : cur.contains spec.map_to = false := by
      cases hc : cur.contains spec.map_to with
      | false => rfl
      | true =>
        exfalso
        have := hcurSome spec.map_to hc
        rw [h0] at this
        simp at this
    have hstep : lookupCol stepped spec.map_to
        = some (nullColumnFor (arrowTypeOf spec.py_type) nrows) := by
      rw [hsteppeddef, hsplit, List.foldl_append, List.foldl_cons]
      rw [conformField_missing_data src now nrows cur _ spec.map_to
        (arrowTypeOf spec.py_type) (beq_eq_false_iff_ne.mpr hnds)
        (beq_eq_false_iff_ne.mpr hnpa) hcontains]
      exact foldl_conform_keep src now nrows cur s2 _ spec.map_to _
        (lookupCol_upsert_self _ _ _)
        (fun f hf he => hn_s2 (he ▸ List.mem_map_of_mem (·.1) hf))
    have hmemb : spec.map_to ∈ targetColumnNames config := by
      rw [targetColumnNames_eq]
      exact List.mem_append_left _ (List.mem_map_of_mem _ hspec)
    rw [hproc, lookupCol_reorder _ _ hnodupNames, if_pos hmemb, hstep]
  · have h0 : lookupCol df0 "data_source"
        = some ⟨.objectD, List.replicate nrows (some (.s src))⟩ := by
      rw [hdf0]
      exact addMetadata_data_source src now nrows _
    have hmem : cur.contains "data_source" = true := by
      rw [hcurdef]
      exact (contains_iff_lookupCol df0 "data_source").mpr (by rw [h0]; rfl)
    have hstep := foldl_conform_keep_meta src now nrows cur schema df0 "data_source" _
      (Or.inl rfl) hmem h0
    have hmemb : "data_source" ∈ targetColumnNames config := by
      rw [targetColumnNames_eq]
      exact List.mem_append_right _ (by decide)
    rw [hproc, lookupCol_reorder _ _ hnodupNames, if_pos hmemb]
    exact hstep
  · have h0 : lookupCol df0 "processed_at"
        = some ⟨.datetimeD, List.replicate nrows (some (.ts now))⟩ := by
      rw [hdf0]
      exact addMetadata_processed_at src now nrows _
    have hmem : cur.contains "processed_at" = true := by
      rw [hcurdef]
      exact (contains_iff_lookupCol df0 "processed_at").mpr (by rw [h0]; rfl)
    have hstep := foldl_conform_keep_meta src now nrows cur schema df0 "processed_at" _
      (Or.inr rfl) hmem h0
    have hmemb : "processed_at" ∈ targetColumnNames config := by
      rw [targetColumnNames_eq]
      exact List.mem_append_right _ (by decide)
    rw [hproc, lookupCol_reorder _ _ hnodupNames, if_pos hmemb]
    exact hstep

/-- Witness for C4: a one-column float config against an empty raw table,
one row. -/
theorem C4_transformer_schema_witness :
    ((processChunk [⟨"Amt", "amount", "float"⟩] "gw" (fun _ => none) 0 1 []).map (·.1)
        = targetColumnNames [⟨"Amt", "amount", "float"⟩])
    ∧ lookupCol (processChunk [⟨"Amt", "amount", "float"⟩] "gw" (fun _ => none) 0 1 [])
        "amount" = some (nullColumnFor (arrowTypeOf "float") 1)
    ∧ lookupCol (processChunk [⟨"Amt", "amount", "float"⟩] "gw" (fun _ => none) 0 1 [])
        "data_source" = some ⟨.objectD, List.replicate 1 (some (.s "gw"))⟩
    ∧ lookupCol (processChunk [⟨"Amt", "amount", "float"⟩] "gw" (fun _ => none) 0 1 [])
        "processed_at" = some ⟨.datetimeD, List.replicate 1 (some (.ts 0))⟩ := by
  have h := C4_transformer_schema [⟨"Amt", "amount", "float"⟩] "gw" (fun _ => none) 0 [] 1
    (by decide) (by decide) (by decide) (by decide)
  exact ⟨h.1, h.2.1 ⟨"Amt", "amount", "float"⟩ (by decide)
    (fun rc hrc => absurd hrc (List.not_mem_nil rc)), h.2.2.1, h.2.2.2⟩
end PaymentETL
